import Mathlib

set_option autoImplicit false

namespace NetWorkGPT

/-!
Shallow embedding of the contact reconciliation pipeline of NetWorkGPT
(src/api/google_contacts_adapter.py, src/api/google_api.py,
src/sync/sync_manager.py, src/sync/sync_manager_helpers.py,
src/database/database.py, src/database/models.py).

Store calls are awaited Python calls that may raise; they are modelled by
threading a call counter (`tick`) through the store state and consulting a
failure oracle `ok : Nat → Bool` at each call: when `ok tick` is false the
call raises (`Except.error`) and performs no effect, otherwise it performs
its effect.  A raised exception leaves previously performed effects in
place, exactly as in the source.
-/

/-- One entry of `contact_data["social_links"]` as produced by
`GoogleContactsAPI._process_contact_data`. -/
structure SocialLinkData where
  platform : String
  url : String
  deriving DecidableEq

/-- The normalized contact dictionary produced by
`GoogleContactsAPI._process_contact_data` and consumed by
`GoogleContactsAdapter._create_contact` / `_update_contact` /
`_process_contacts`.  Every scalar field is a string (possibly empty). -/
structure ContactData where
  google_id : String
  name : String
  email : String
  phone : String
  company : String
  position : String
  notes : String
  social_links : List SocialLinkData
  deriving DecidableEq

/-- A stored `Contact` row (src/database/models.py), restricted to the
columns the reconciliation reads and writes. -/
structure Contact where
  id : Nat
  user_id : Nat
  google_id : String
  name : String
  email : String
  phone : String
  company : String
  position : String
  notes : String
  deriving DecidableEq

/-- A stored `SocialLink` row (src/database/models.py), restricted to the
columns the reconciliation reads and writes. -/
structure SocialLink where
  contact_id : Nat
  platform : String
  url : String
  deriving DecidableEq

/-- State of the relational store as seen by the adapter, together with the
call counter `tick` driving the failure oracle and the fresh-id counter
`nextId` (store-assigned primary keys). -/
structure Db where
  contacts : List Contact
  links : List SocialLink
  nextId : Nat
  tick : Nat
  deriving DecidableEq

/-- One awaited store call: if the oracle accepts the current tick the
operation `act` is performed, otherwise the call raises and the store is
unchanged; the call counter advances either way. -/
def dbStep {α : Type} (ok : Nat → Bool) (s : Db) (act : Db → α × Db) :
    Db × Except String α :=
  if ok s.tick then
    let r := act { s with tick := s.tick + 1 }
    (r.2, Except.ok r.1)
  else
    ({ s with tick := s.tick + 1 }, Except.error "db error")

/-- The statistics dictionary accumulated by `_process_contacts`. -/
structure SyncStats where
  total : Nat
  added : Nat
  updated : Nat
  skipped : Nat
  failed : Nat
  deriving DecidableEq

/-- The `changes` dictionary built by `GoogleContactsAdapter._update_contact`
at the point of the `update_contact` call (scalar fields only; a missing key
is `none`). -/
structure Changes where
  name : Option String := none
  email : Option String := none
  phone : Option String := none
  company : Option String := none
  position : Option String := none
  notes : Option String := none
  deriving DecidableEq

namespace DatabaseManager

/-- DatabaseManager.get_contact_by_google_id: select the first Contact with
the given `user_id` and `google_id`, or `None`. -/
def get_contact_by_google_id (ok : Nat → Bool) (user_id : Nat)
    (google_id : String) (s : Db) : Db × Except String (Option Contact) :=
  dbStep ok s fun s =>
    (s.contacts.find? (fun c => c.user_id == user_id && c.google_id == google_id), s)

/-- DatabaseManager.get_social_links: select all SocialLink rows of the
given contact. -/
def get_social_links (ok : Nat → Bool) (contact_id : Nat) (s : Db) :
    Db × Except String (List SocialLink) :=
  dbStep ok s fun s => (s.links.filter (fun l => l.contact_id == contact_id), s)

/-- Modelled from the spec: the store method `add_contact` called by
`GoogleContactsAdapter._create_contact` is absent from
src/database/database.py (only its callers exist); the spec's Local Contact
Store contract `create(account_id, attrs) -> LocalContact` assigns a fresh
internal id and stores exactly the supplied attributes. -/
def add_contact (ok : Nat → Bool) (user_id : Nat) (cd : ContactData) (s : Db) :
    Db × Except String Contact :=
  dbStep ok s fun s =>
    let c : Contact :=
      { id := s.nextId, user_id := user_id, google_id := cd.google_id,
        name := cd.name, email := cd.email, phone := cd.phone,
        company := cd.company, position := cd.position, notes := cd.notes }
    (c, { s with contacts := s.contacts ++ [c], nextId := s.nextId + 1 })

/-- Application of a partial `changes` dictionary to a stored contact row:
present keys overwrite the column, absent keys leave it. -/
def applyChanges (c : Contact) (ch : Changes) : Contact :=
  { c with
    name := ch.name.getD c.name,
    email := ch.email.getD c.email,
    phone := ch.phone.getD c.phone,
    company := ch.company.getD c.company,
    position := ch.position.getD c.position,
    notes := ch.notes.getD c.notes }

/-- Modelled from the spec: the store method `update_contact` called by
`GoogleContactsAdapter._update_contact` is absent from
src/database/database.py; the spec's contract
`update(contact_id, changed_attrs) -> void` writes only the supplied
fields of the addressed contact. -/
def update_contact (ok : Nat → Bool) (contact_id : Nat) (ch : Changes)
    (s : Db) : Db × Except String Unit :=
  dbStep ok s fun s =>
    ((), { s with contacts :=
      s.contacts.map fun c => if c.id == contact_id then applyChanges c ch else c })

/-- Modelled from the spec: the store method `add_social_link` called by the
adapter is absent from src/database/database.py; the spec's contract
`add_social_link(contact_id, platform, url) -> void` appends one SocialLink
row. -/
def add_social_link (ok : Nat → Bool) (contact_id : Nat)
    (platform url : String) (s : Db) : Db × Except String Unit :=
  dbStep ok s fun s =>
    ((), { s with links := s.links ++ [⟨contact_id, platform, url⟩] })

end DatabaseManager

namespace GoogleContactsAdapter

open DatabaseManager

/-- The `for social_link in contact_data["social_links"]` loop of
`GoogleContactsAdapter._create_contact`: every link of the record is added,
in order, with no duplicate check. -/
def addLinksAll (ok : Nat → Bool) (contact_id : Nat) :
    List SocialLinkData → Db → Db × Except String Unit
  | [], s => (s, Except.ok ())
  | l :: ls, s =>
    match add_social_link ok contact_id l.platform l.url s with
    | (s, Except.error e) => (s, Except.error e)
    | (s, Except.ok _) => addLinksAll ok contact_id ls s

/-- GoogleContactsAdapter._create_contact: create the contact row, then add
every social link of the record. -/
def _create_contact (ok : Nat → Bool) (user_id : Nat) (cd : ContactData)
    (s : Db) : Db × Except String Contact :=
  match add_contact ok user_id cd s with
  | (s, Except.error e) => (s, Except.error e)
  | (s, Except.ok c) =>
    match addLinksAll ok c.id cd.social_links s with
    | (s, Except.error e) => (s, Except.error e)
    | (s, Except.ok _) => (s, Except.ok c)

end GoogleContactsAdapter

/-- Truth value of `if changes:` at the `update_contact` call site of
`GoogleContactsAdapter._update_contact` (the dictionary holds scalar keys
only at that point). -/
def Changes.hasScalar (ch : Changes) : Bool :=
  ch.name.isSome || ch.email.isSome || ch.phone.isSome ||
    ch.company.isSome || ch.position.isSome || ch.notes.isSome

namespace GoogleContactsAdapter

open DatabaseManager

/-- The scalar diff computed at the top of
`GoogleContactsAdapter._update_contact`: a field enters `changes` exactly
when the stored value differs from the incoming value and the incoming
value is truthy (non-empty). -/
def scalarChanges (c : Contact) (cd : ContactData) : Changes :=
  { name := if c.name ≠ cd.name ∧ cd.name ≠ "" then some cd.name else none,
    email := if c.email ≠ cd.email ∧ cd.email ≠ "" then some cd.email else none,
    phone := if c.phone ≠ cd.phone ∧ cd.phone ≠ "" then some cd.phone else none,
    company := if c.company ≠ cd.company ∧ cd.company ≠ "" then some cd.company else none,
    position := if c.position ≠ cd.position ∧ cd.position ≠ "" then some cd.position else none,
    notes := if c.notes ≠ cd.notes ∧ cd.notes ≠ "" then some cd.notes else none }

/-- The `for social_link in contact_data["social_links"]` loop of
`_update_contact`: a link is added exactly when its url is not among
`current_urls` (the urls stored before the loop — the set is not updated as
links are added); the returned flag records whether any link was added
(the `changes["social_links"] = True` marker). -/
def addNewLinks (ok : Nat → Bool) (contact_id : Nat) (current_urls : List String) :
    List SocialLinkData → Db → Bool → Db × Except String Bool
  | [], s, added => (s, Except.ok added)
  | l :: ls, s, added =>
    if current_urls.contains l.url then
      addNewLinks ok contact_id current_urls ls s added
    else
      match add_social_link ok contact_id l.platform l.url s with
      | (s, Except.error e) => (s, Except.error e)
      | (s, Except.ok _) => addNewLinks ok contact_id current_urls ls s true

/-- GoogleContactsAdapter._update_contact: write the scalar diff if
non-empty, fetch the current social links, append the links with new urls,
and report whether anything changed. -/
def _update_contact (ok : Nat → Bool) (c : Contact) (cd : ContactData)
    (s : Db) : Db × Except String Bool :=
  let ch := scalarChanges c cd
  match (if ch.hasScalar then update_contact ok c.id ch s else (s, Except.ok ())) with
  | (s, Except.error e) => (s, Except.error e)
  | (s, Except.ok _) =>
    match get_social_links ok c.id s with
    | (s, Except.error e) => (s, Except.error e)
    | (s, Except.ok current_links) =>
      match addNewLinks ok c.id (current_links.map (fun l => l.url)) cd.social_links s false with
      | (s, Except.error e) => (s, Except.error e)
      | (s, Except.ok added) => (s, Except.ok (ch.hasScalar || added))

/-- Classification of one record by the loop body of `_process_contacts`. -/
inductive Outcome where
  | added
  | updated
  | skipped
  deriving DecidableEq

/-- Body of the `try` block of `_process_contacts` for one record: look the
record up by google id, then update or create. -/
def processOne (ok : Nat → Bool) (user_id : Nat) (cd : ContactData) (s : Db) :
    Db × Except String Outcome :=
  match get_contact_by_google_id ok user_id cd.google_id s with
  | (s, Except.error e) => (s, Except.error e)
  | (s, Except.ok (some existing)) =>
    match _update_contact ok existing cd s with
    | (s, Except.error e) => (s, Except.error e)
    | (s, Except.ok updated) =>
      (s, Except.ok (if updated then Outcome.updated else Outcome.skipped))
  | (s, Except.ok none) =>
    match _create_contact ok user_id cd s with
    | (s, Except.error e) => (s, Except.error e)
    | (s, Except.ok _) => (s, Except.ok Outcome.added)

/-- The `for contact_data in google_contacts` loop of `_process_contacts`,
with the per-record `try/except` that turns any exception raised while
processing one record into `failed += 1` and continues with the next. -/
def processLoop (ok : Nat → Bool) (user_id : Nat) :
    List ContactData → Db → SyncStats → SyncStats × Db
  | [], s, stats => (stats, s)
  | cd :: rest, s, stats =>
    match processOne ok user_id cd s with
    | (s, Except.ok Outcome.added) =>
      processLoop ok user_id rest s { stats with added := stats.added + 1 }
    | (s, Except.ok Outcome.updated) =>
      processLoop ok user_id rest s { stats with updated := stats.updated + 1 }
    | (s, Except.ok Outcome.skipped) =>
      processLoop ok user_id rest s { stats with skipped := stats.skipped + 1 }
    | (s, Except.error _) =>
      processLoop ok user_id rest s { stats with failed := stats.failed + 1 }

/-- GoogleContactsAdapter._process_contacts: initialize the statistics with
`total = len(google_contacts)` and run the loop. -/
def _process_contacts (ok : Nat → Bool) (user_id : Nat)
    (google_contacts : List ContactData) (s : Db) : SyncStats × Db :=
  processLoop ok user_id google_contacts s
    { total := google_contacts.length, added := 0, updated := 0, skipped := 0,
      failed := 0 }

end GoogleContactsAdapter

/-- Oracle under which every store call succeeds. -/
def okAll : Nat → Bool := fun _ => true

/-- The empty store. -/
def emptyDb : Db := { contacts := [], links := [], nextId := 1, tick := 0 }

/-- The `metadata` sub-dictionary of one entry of a raw Google person
record; `primary` defaults to false when absent. -/
structure Metadata where
  primary : Bool := false
  deriving DecidableEq

/-- One entry of the `names` list of a raw person record. -/
structure NameEntry where
  metadata : Metadata := {}
  displayName : Option String := none
  deriving DecidableEq

/-- One entry of the `emailAddresses` / `phoneNumbers` / `biographies`
lists of a raw person record. -/
structure ValueEntry where
  metadata : Metadata := {}
  value : Option String := none
  deriving DecidableEq

/-- One entry of the `organizations` list of a raw person record. -/
structure OrgEntry where
  metadata : Metadata := {}
  name : Option String := none
  title : Option String := none
  deriving DecidableEq

/-- One entry of the `urls` list of a raw person record. -/
structure UrlEntry where
  type : Option String := none
  value : Option String := none
  deriving DecidableEq

/-- A raw remote contact record as returned by the People API: every field
may be absent (`none` / empty list). -/
structure PersonRecord where
  resourceName : Option String := none
  id : Option String := none
  names : List NameEntry := []
  emailAddresses : List ValueEntry := []
  phoneNumbers : List ValueEntry := []
  organizations : List OrgEntry := []
  biographies : List ValueEntry := []
  urls : List UrlEntry := []
  deriving DecidableEq

namespace GoogleContactsAPI

/-- The selection expression
`next((x for x in xs if x.get("metadata", {}).get("primary", False)), xs[0])`
used for every multi-valued field of `_process_contact_data`, guarded by
the list being non-empty. -/
def primaryOrFirst {α : Type} (entries : List α) (isPrimary : α → Bool) :
    Option α :=
  match entries with
  | [] => none
  | e :: _ => some ((entries.find? isPrimary).getD e)

/-- GoogleContactsAPI._process_contact_data: normalize one raw person
record into the contact dictionary consumed by the adapter. -/
def _process_contact_data (r : PersonRecord) : ContactData :=
  { google_id := (r.resourceName.getD "").replace "people/" "",
    name :=
      match primaryOrFirst r.names (fun n => n.metadata.primary) with
      | some n => n.displayName.getD ""
      | none => "",
    email :=
      match primaryOrFirst r.emailAddresses (fun e => e.metadata.primary) with
      | some e => e.value.getD ""
      | none => "",
    phone :=
      match primaryOrFirst r.phoneNumbers (fun p => p.metadata.primary) with
      | some p => p.value.getD ""
      | none => "",
    company :=
      match primaryOrFirst r.organizations (fun o => o.metadata.primary) with
      | some o => o.name.getD ""
      | none => "",
    position :=
      match primaryOrFirst r.organizations (fun o => o.metadata.primary) with
      | some o => o.title.getD ""
      | none => "",
    notes :=
      match primaryOrFirst r.biographies (fun b => b.metadata.primary) with
      | some b => b.value.getD ""
      | none => "",
    social_links :=
      r.urls.map (fun u => { platform := u.type.getD "website", url := u.value.getD "" }) }

end GoogleContactsAPI

/-- The `contact_info` dictionary produced by
`SyncManager._extract_contact_info`: `name` is always a string, every other
value is either `None` or a non-empty string. -/
structure ContactInfo where
  name : String
  email : Option String
  phone : Option String
  notes : Option String
  company : Option String
  position : Option String
  deriving DecidableEq

/-- A stored contact row as read and written by the SyncManager variant
(`google_id` is the empty string when the column is NULL or empty). -/
structure SMContact where
  id : Nat
  user_id : Nat
  google_id : String
  info : ContactInfo
  deriving DecidableEq

/-- Store state for the SyncManager variant: rows, fresh-id counter, call
counter for the failure oracle, and an audit list of the `update_contact`
calls issued against the store. -/
structure SMDb where
  contacts : List SMContact
  nextId : Nat
  tick : Nat
  updateCalls : List (Nat × ContactInfo)
  deriving DecidableEq

/-- One awaited store call of the SyncManager variant; same failure
discipline as `dbStep`. -/
def smStep {α : Type} (ok : Nat → Bool) (s : SMDb) (act : SMDb → α × SMDb) :
    SMDb × Except String α :=
  if ok s.tick then
    let r := act { s with tick := s.tick + 1 }
    (r.2, Except.ok r.1)
  else
    ({ s with tick := s.tick + 1 }, Except.error "db error")

/-- Python truthiness of an optional string (`None` and `""` are falsy). -/
def truthy : Option String → Bool
  | none => false
  | some s => s != ""

namespace SyncManager

/-- The Python expression
`contact_data.get('resourceName') or contact_data.get('id')` in
`SyncManager._process_contacts`. -/
def smGoogleId (r : PersonRecord) : Option String :=
  if truthy r.resourceName then r.resourceName else r.id

/-- SyncManager._extract_contact_info: take the first entry of each list,
keep a value only when it is truthy; missing values stay `None`
(`name` stays `''`). -/
def _extract_contact_info (r : PersonRecord) : ContactInfo :=
  { name :=
      match r.names with
      | [] => ""
      | n :: _ =>
        match n.displayName with
        | some full_name => if full_name != "" then full_name else ""
        | none => "",
    email :=
      match r.emailAddresses with
      | [] => none
      | e :: _ =>
        match e.value with
        | some v => if v != "" then some v else none
        | none => none,
    phone :=
      match r.phoneNumbers with
      | [] => none
      | p :: _ =>
        match p.value with
        | some v => if v != "" then some v else none
        | none => none,
    notes :=
      match r.biographies with
      | [] => none
      | b :: _ =>
        match b.value with
        | some v => if v != "" then some v else none
        | none => none,
    company :=
      match r.organizations with
      | [] => none
      | o :: _ =>
        match o.name with
        | some v => if v != "" then some v else none
        | none => none,
    position :=
      match r.organizations with
      | [] => none
      | o :: _ =>
        match o.title with
        | some v => if v != "" then some v else none
        | none => none }

/-- Modelled from the spec: `list_for_account(account_id)` — the store
method `get_contacts_by_user_id` called by `SyncManager._process_contacts`
is absent from src/database/database.py (only its caller exists). -/
def get_contacts_by_user_id (ok : Nat → Bool) (user_id : Nat) (s : SMDb) :
    SMDb × Except String (List SMContact) :=
  smStep ok s fun s => (s.contacts.filter (fun c => c.user_id == user_id), s)

/-- Modelled from the spec: `update(contact_id, changed_attrs)` — the store
method `update_contact` called with the whole `contact_info` dictionary is
absent from src/database/database.py.  The issued call is recorded in the
audit list. -/
def update_contact (ok : Nat → Bool) (contact_id : Nat) (info : ContactInfo)
    (s : SMDb) : SMDb × Except String Unit :=
  smStep ok s fun s =>
    ((), { s with
      contacts := s.contacts.map fun c =>
        if c.id == contact_id then { c with info := info } else c,
      updateCalls := s.updateCalls ++ [(contact_id, info)] })

/-- Modelled from the spec: `create(account_id, attrs)` — the store method
`add_contact` called with `contact_info` extended by `user_id` and
`google_id` is absent from src/database/database.py. -/
def add_contact (ok : Nat → Bool) (user_id : Nat) (google_id : String)
    (info : ContactInfo) (s : SMDb) : SMDb × Except String SMContact :=
  smStep ok s fun s =>
    let c : SMContact :=
      { id := s.nextId, user_id := user_id, google_id := google_id, info := info }
    (c, { s with contacts := s.contacts ++ [c], nextId := s.nextId + 1 })

/-- Lookup in the dict comprehension
`{contact.google_id: contact for contact in existing_contacts if contact.google_id}`:
rows with a falsy google_id are excluded and, among duplicate keys, the
last wins. -/
def lookupByGoogleId (existing : List SMContact) (gid : String) :
    Option SMContact :=
  (existing.filter (fun c => c.google_id != "" && c.google_id == gid)).getLast?

/-- Classification of one record by the loop body of
`SyncManager._process_contacts`. -/
inductive SMOutcome where
  | added
  | updated
  | skipped
  | failed
  deriving DecidableEq

/-- Body of the `for contact_data in google_contacts` loop of
`SyncManager._process_contacts` for one record, per-record `try/except`
included: a record with a falsy google id is skipped before any store call;
otherwise a single update or create call is issued against the snapshot
lookup, and a raised store call yields `failed`. -/
def processRecord (ok : Nat → Bool) (user_id : Nat)
    (lookup : List SMContact) (r : PersonRecord) (s : SMDb) :
    SMDb × SMOutcome :=
  let g := smGoogleId r
  if truthy g then
    let gid := g.getD ""
    let contact_info := _extract_contact_info r
    match lookupByGoogleId lookup gid with
    | some existing =>
      match update_contact ok existing.id contact_info s with
      | (s, Except.ok _) => (s, SMOutcome.updated)
      | (s, Except.error _) => (s, SMOutcome.failed)
    | none =>
      match add_contact ok user_id gid contact_info s with
      | (s, Except.ok _) => (s, SMOutcome.added)
      | (s, Except.error _) => (s, SMOutcome.failed)
  else
    (s, SMOutcome.skipped)

/-- The `for` loop of `SyncManager._process_contacts`, accumulating the
result counters. -/
def processContactsLoop (ok : Nat → Bool) (user_id : Nat)
    (lookup : List SMContact) :
    List PersonRecord → SMDb → SyncStats → SyncStats × SMDb
  | [], s, result => (result, s)
  | r :: rest, s, result =>
    match processRecord ok user_id lookup r s with
    | (s, SMOutcome.added) =>
      processContactsLoop ok user_id lookup rest s { result with added := result.added + 1 }
    | (s, SMOutcome.updated) =>
      processContactsLoop ok user_id lookup rest s { result with updated := result.updated + 1 }
    | (s, SMOutcome.skipped) =>
      processContactsLoop ok user_id lookup rest s { result with skipped := result.skipped + 1 }
    | (s, SMOutcome.failed) =>
      processContactsLoop ok user_id lookup rest s { result with failed := result.failed + 1 }

/-- SyncManager._process_contacts: load the existing-contacts snapshot
once (a failure here escapes the per-record isolation and propagates),
build the google_id lookup, then run the loop. -/
def _process_contacts (ok : Nat → Bool) (user_id : Nat)
    (google_contacts : List PersonRecord) (s : SMDb) :
    SMDb × Except String SyncStats :=
  match get_contacts_by_user_id ok user_id s with
  | (s, Except.error e) => (s, Except.error e)
  | (s, Except.ok existing) =>
    let r := processContactsLoop ok user_id existing google_contacts s
      { total := google_contacts.length, added := 0, updated := 0,
        skipped := 0, failed := 0 }
    (r.2, Except.ok r.1)

end SyncManager

/-- Events on the sync_logs table: one row is created at run start
(`openRun`) and finalized at run end (`closeRun`) with the success flag,
the statistics on success, and the error message on failure. -/
inductive RunEvent where
  | openRun (user_id : Nat)
  | closeRun (success : Bool) (result : Option SyncStats) (error_message : Option String)
  deriving DecidableEq

namespace SyncManager

/-- SyncManager.sync_contacts: check authorization (raising before any run
log is opened if the user has no Google token), open the run log, fetch the
remote contacts (`fetch` is the outcome of `google_api.get_contacts`),
process them, close the run log with the statistics, and on any exception
escaping the per-record isolation close the run log as failed with the
error message and re-raise.  The run logger (`_create_sync_log` /
`_update_sync_log`) is modelled as the spec's Run Logger collaborator whose
calls always succeed and are recorded as events. -/
def sync_contacts (authorized : Bool)
    (fetch : Except String (List PersonRecord)) (ok : Nat → Bool)
    (user_id : Nat) (s : SMDb) :
    Except String SyncStats × SMDb × List RunEvent :=
  if authorized then
    match fetch with
    | Except.error e =>
      (Except.error e, s,
        [RunEvent.openRun user_id, RunEvent.closeRun false none (some e)])
    | Except.ok google_contacts =>
      match _process_contacts ok user_id google_contacts s with
      | (s, Except.error e) =>
        (Except.error e, s,
          [RunEvent.openRun user_id, RunEvent.closeRun false none (some e)])
      | (s, Except.ok result) =>
        (Except.ok result, s,
          [RunEvent.openRun user_id, RunEvent.closeRun true (some result) none])
  else
    (Except.error "Пользователь не авторизован в Google", s, [])

end SyncManager

/-- The result dictionary of
`GoogleContactsAdapter.sync_contacts_from_google`. -/
structure SyncResult where
  success : Bool
  stats : SyncStats
  message : String
  deriving DecidableEq

namespace GoogleContactsAdapter

/-- GoogleContactsAdapter.sync_contacts_from_google: raise `ValueError`
before any run log is opened when the user is not authorized.  Next comes
the token-refresh branch (entered when the stored token expiry is set,
expired, and a refresh token is present — `needsRefresh`): inside it,
either `refresh_access_token` raises, or the expiry computation adds a
`datetime` and the int default 3600 (`refresh_access_token` returns no
`expires_in` key) and raises `TypeError`; either way an exception escapes
before `create_sync_log`, the generic handler finds no `sync_log` in
locals, and a `success=False` dictionary returns with no run-log record
touched — `refreshError` is the raised exception's message.  Otherwise the
sync log is created, the contacts are fetched and processed, the log is
finalized with the statistics and a success dictionary returns; on an
engine-level exception after the log was created, the log is finalized as
failed with the error message and the failure is surfaced as a
`success=False` dictionary with zeroed statistics.  The run logger
(`create_sync_log` / `update_sync_log`) is modelled as infallible; its
calls are the events. -/
def sync_contacts_from_google (authorized needsRefresh : Bool)
    (refreshError : String)
    (fetch : Except String (List ContactData)) (ok : Nat → Bool)
    (user_id : Nat) (s : Db) :
    Except String SyncResult × Db × List RunEvent :=
  if authorized then
    if needsRefresh then
      (Except.ok { success := false, stats := ⟨0, 0, 0, 0, 0⟩,
                   message := "Ошибка синхронизации: " ++ refreshError }, s, [])
    else
      match fetch with
      | Except.error e =>
        (Except.ok { success := false, stats := ⟨0, 0, 0, 0, 0⟩,
                     message := "Ошибка синхронизации: " ++ e }, s,
          [RunEvent.openRun user_id, RunEvent.closeRun false none (some e)])
      | Except.ok google_contacts =>
        let r := _process_contacts ok user_id google_contacts s
        (Except.ok { success := true, stats := r.1,
                     message := "Синхронизация контактов успешно выполнена" }, r.2,
          [RunEvent.openRun user_id, RunEvent.closeRun true (some r.1) none])
  else
    (Except.error "Вы не авторизованы в Google. Пожалуйста, авторизуйтесь.", s, [])

end GoogleContactsAdapter

namespace SyncManagerHelpers

/-- The statistics dictionary returned by the free function
`_process_contacts` of src/sync/sync_manager_helpers.py; `skipped` is a
Python int and may be negative. -/
structure HelperStats where
  total : Nat
  added : Nat
  updated : Nat
  skipped : Int
  deriving DecidableEq

/-- The free-function `_process_contacts` of sync_manager_helpers.py: the
`db_manager` argument is never used (no store read or write); the returned
statistics are the hardcoded MVP placeholder counts, with
`skipped = len(google_contacts) - 20`. -/
def _process_contacts {α : Type} (_user_id : Nat)
    (google_contacts : List α) : HelperStats :=
  { total := google_contacts.length,
    added := 15,
    updated := 5,
    skipped := (google_contacts.length : Int) - 20 }

end SyncManagerHelpers

/-! Derived definitions used by the verification: spec-side formulations
for refinement statements, and invariants of the store. -/

/-- The empty store for the SyncManager variant. -/
def emptySMDb : SMDb := { contacts := [], nextId := 1, tick := 0, updateCalls := [] }

/-- Defined following the spec's words, for comparison with the code: the
fill-or-replace merge — each scalar field takes the incoming value when
that value is non-empty and differs from the stored one, and keeps the
stored value otherwise. -/
def specMerge (c : Contact) (cd : ContactData) : Contact :=
  { c with
    name := if cd.name ≠ "" ∧ cd.name ≠ c.name then cd.name else c.name,
    email := if cd.email ≠ "" ∧ cd.email ≠ c.email then cd.email else c.email,
    phone := if cd.phone ≠ "" ∧ cd.phone ≠ c.phone then cd.phone else c.phone,
    company := if cd.company ≠ "" ∧ cd.company ≠ c.company then cd.company else c.company,
    position := if cd.position ≠ "" ∧ cd.position ≠ c.position then cd.position else c.position,
    notes := if cd.notes ≠ "" ∧ cd.notes ≠ c.notes then cd.notes else c.notes }

/-- Defined following the spec's words, for comparison with the code: the
selection rule for multi-valued fields — the first entry flagged primary in
source order if any entry is flagged primary, otherwise the first entry in
source order, nothing when the list is empty. -/
def specSelect {α : Type} (entries : List α) (isPrimary : α → Bool) : Option α :=
  match entries.find? isPrimary with
  | some e => some e
  | none => entries.head?

/-- Urls of the social links stored for a contact. -/
def urlsOf (s : Db) (contact_id : Nat) : List String :=
  (s.links.filter (fun l => l.contact_id == contact_id)).map (fun l => l.url)

/-- A contact key (owner and google id) is present in the store. -/
def hasKey (s : Db) (user_id : Nat) (google_id : String) : Prop :=
  ∃ c ∈ s.contacts, c.user_id = user_id ∧ c.google_id = google_id

/-- Well-formedness of the store: internal ids are pairwise distinct and
below the fresh-id counter. -/
def Wf (s : Db) : Prop :=
  (s.contacts.map (fun c => c.id)).Nodup ∧ ∀ c ∈ s.contacts, c.id < s.nextId

/-- A record is settled in a store: the lookup by its google id finds a
contact on which the scalar diff is empty and whose stored links already
contain every url of the record. -/
def settled (s : Db) (user_id : Nat) (cd : ContactData) : Prop :=
  ∃ c, s.contacts.find?
      (fun c => c.user_id == user_id && c.google_id == cd.google_id) = some c ∧
    GoogleContactsAdapter.scalarChanges c cd = {} ∧
    ∀ l ∈ cd.social_links, l.url ∈ urlsOf s c.id

/-! Theorems. -/

/-- C10: the free-function variant `_process_contacts` in
sync_manager_helpers returns, for every input list of length n, exactly
total = n, added = 15, updated = 5, skipped = n - 20, computed without any
store access and with no failed count; its skipped count is negative
whenever the input has fewer than 20 contacts. -/
theorem helpers_process_contacts_placeholder {α : Type} (user_id : Nat)
    (google_contacts : List α) :
    SyncManagerHelpers._process_contacts user_id google_contacts =
      { total := google_contacts.length, added := 15, updated := 5,
        skipped := (google_contacts.length : Int) - 20 } ∧
    (google_contacts.length < 20 →
      (SyncManagerHelpers._process_contacts user_id google_contacts).skipped < 0) := by
  refine ⟨rfl, fun h => ?_⟩
  show (google_contacts.length : Int) - 20 < 0
  omega

/-- Witness for C10 at the empty input: 0 contacts give skipped = -20. -/
theorem helpers_process_contacts_placeholder_witness :
    (SyncManagerHelpers._process_contacts 7 ([] : List Nat)).skipped < 0 :=
  (helpers_process_contacts_placeholder 7 ([] : List Nat)).2 (by decide)

/-- The adapter's processing loop adds exactly one to the outcome counters
per record and never touches `total`. -/
theorem adapter_processLoop_counts (ok : Nat → Bool) (user_id : Nat) :
    ∀ (cs : List ContactData) (s : Db) (stats : SyncStats),
      (GoogleContactsAdapter.processLoop ok user_id cs s stats).1.added +
            (GoogleContactsAdapter.processLoop ok user_id cs s stats).1.updated +
            (GoogleContactsAdapter.processLoop ok user_id cs s stats).1.skipped +
            (GoogleContactsAdapter.processLoop ok user_id cs s stats).1.failed =
          stats.added + stats.updated + stats.skipped + stats.failed + cs.length ∧
        (GoogleContactsAdapter.processLoop ok user_id cs s stats).1.total =
          stats.total := by
  intro cs
  induction cs with
  | nil =>
    intro s stats
    simp [GoogleContactsAdapter.processLoop]
  | cons cd rest ih =>
    intro s stats
    rw [GoogleContactsAdapter.processLoop]
    rcases h : GoogleContactsAdapter.processOne ok user_id cd s with ⟨s', r⟩
    match r with
    | Except.error e =>
      have h1 := ih s' { stats with failed := stats.failed + 1 }
      simp only [List.length_cons]
      simp at h1
      omega
    | Except.ok GoogleContactsAdapter.Outcome.added =>
      have h1 := ih s' { stats with added := stats.added + 1 }
      simp only [List.length_cons]
      simp at h1
      omega
    | Except.ok GoogleContactsAdapter.Outcome.updated =>
      have h1 := ih s' { stats with updated := stats.updated + 1 }
      simp only [List.length_cons]
      simp at h1
      omega
    | Except.ok GoogleContactsAdapter.Outcome.skipped =>
      have h1 := ih s' { stats with skipped := stats.skipped + 1 }
      simp only [List.length_cons]
      simp at h1
      omega

/-- The SyncManager processing loop adds exactly one to the outcome
counters per record and never touches `total`. -/
theorem sm_processLoop_counts (ok : Nat → Bool) (user_id : Nat)
    (lookup : List SMContact) :
    ∀ (rs : List PersonRecord) (s : SMDb) (result : SyncStats),
      (SyncManager.processContactsLoop ok user_id lookup rs s result).1.added +
            (SyncManager.processContactsLoop ok user_id lookup rs s result).1.updated +
            (SyncManager.processContactsLoop ok user_id lookup rs s result).1.skipped +
            (SyncManager.processContactsLoop ok user_id lookup rs s result).1.failed =
          result.added + result.updated + result.skipped + result.failed + rs.length ∧
        (SyncManager.processContactsLoop ok user_id lookup rs s result).1.total =
          result.total := by
  intro rs
  induction rs with
  | nil =>
    intro s result
    simp [SyncManager.processContactsLoop]
  | cons r rest ih =>
    intro s result
    rw [SyncManager.processContactsLoop]
    rcases h : SyncManager.processRecord ok user_id lookup r s with ⟨s', o⟩
    match o with
    | SyncManager.SMOutcome.added =>
      have h1 := ih s' { result with added := result.added + 1 }
      simp only [List.length_cons]
      simp at h1
      omega
    | SyncManager.SMOutcome.updated =>
      have h1 := ih s' { result with updated := result.updated + 1 }
      simp only [List.length_cons]
      simp at h1
      omega
    | SyncManager.SMOutcome.skipped =>
      have h1 := ih s' { result with skipped := result.skipped + 1 }
      simp only [List.length_cons]
      simp at h1
      omega
    | SyncManager.SMOutcome.failed =>
      have h1 := ih s' { result with failed := result.failed + 1 }
      simp only [List.length_cons]
      simp at h1
      omega

/-- C1: for every input list of normalized contacts, the statistics
returned by the reconciliation (`_process_contacts`, in both the adapter
variant and the SyncManager variant) satisfy
added + updated + skipped + failed = total, where total is the length of
the input list. -/
theorem process_contacts_stats_sum :
    (∀ (ok : Nat → Bool) (user_id : Nat) (google_contacts : List ContactData)
        (s : Db),
      (GoogleContactsAdapter._process_contacts ok user_id google_contacts s).1.added +
          (GoogleContactsAdapter._process_contacts ok user_id google_contacts s).1.updated +
          (GoogleContactsAdapter._process_contacts ok user_id google_contacts s).1.skipped +
          (GoogleContactsAdapter._process_contacts ok user_id google_contacts s).1.failed =
          (GoogleContactsAdapter._process_contacts ok user_id google_contacts s).1.total ∧
        (GoogleContactsAdapter._process_contacts ok user_id google_contacts s).1.total =
          google_contacts.length) ∧
    (∀ (ok : Nat → Bool) (user_id : Nat) (google_contacts : List PersonRecord)
        (s : SMDb) (st : SyncStats),
      (SyncManager._process_contacts ok user_id google_contacts s).2 = Except.ok st →
      st.added + st.updated + st.skipped + st.failed = st.total ∧
        st.total = google_contacts.length) := by
  constructor
  · intro ok user_id google_contacts s
    have h := adapter_processLoop_counts ok user_id google_contacts s
      { total := google_contacts.length, added := 0, updated := 0, skipped := 0,
        failed := 0 }
    rcases h with ⟨h1, h2⟩
    unfold GoogleContactsAdapter._process_contacts
    simp at h1 h2
    refine ⟨?_, ?_⟩ <;> omega
  · intro ok user_id google_contacts s st h
    unfold SyncManager._process_contacts at h
    rcases hg : SyncManager.get_contacts_by_user_id ok user_id s with ⟨s', r⟩
    rw [hg] at h
    match r with
    | Except.error e => simp at h
    | Except.ok existing =>
      simp only [] at h
      have hc := sm_processLoop_counts ok user_id existing google_contacts s'
        { total := google_contacts.length, added := 0, updated := 0, skipped := 0,
          failed := 0 }
      rcases hc with ⟨h1, h2⟩
      have hst : st = (SyncManager.processContactsLoop ok user_id existing
          google_contacts s'
          { total := google_contacts.length, added := 0, updated := 0,
            skipped := 0, failed := 0 }).1 := by
        injection h with h'
        exact h'.symm
      subst hst
      simp at h1 h2
      refine ⟨?_, ?_⟩ <;> omega

/-- Witness for C1 (SyncManager part): on the empty input against the empty
store the loop returns statistics summing to total = 0. -/
theorem process_contacts_stats_sum_witness :
    (0 : Nat) + 0 + 0 + 0 = 0 ∧ (0 : Nat) = ([] : List PersonRecord).length :=
  process_contacts_stats_sum.2 okAll 1 [] emptySMDb ⟨0, 0, 0, 0, 0⟩ rfl

/-- A store call under the all-success oracle performs its operation. -/
theorem dbStep_okAll {α : Type} (s : Db) (act : Db → α × Db) :
    dbStep okAll s act =
      ((act { s with tick := s.tick + 1 }).2,
        Except.ok (act { s with tick := s.tick + 1 }).1) := by
  simp [dbStep, okAll]

/-- One scalar field of the fill-or-replace merge: the diff entry applied to
the stored value gives the incoming value exactly when it is non-empty and
different. -/
theorem fill_field (stored incoming : String) :
    (if stored ≠ incoming ∧ incoming ≠ "" then some incoming else none).getD stored =
      if incoming ≠ "" ∧ incoming ≠ stored then incoming else stored := by
  by_cases h1 : incoming = ""
  · simp [h1]
  · by_cases h2 : stored = incoming
    · simp [h2]
    · simp [h1, h2, Ne.symm h2]

/-- One scalar field enters the diff exactly when the incoming value is
non-empty and differs from the stored value. -/
theorem scalarChange_iff (stored incoming : String) :
    ((if stored ≠ incoming ∧ incoming ≠ "" then some incoming else none).isSome = true)
      ↔ (incoming ≠ "" ∧ incoming ≠ stored) := by
  split_ifs with h
  · simpa using ⟨h.2, Ne.symm h.1⟩
  · simp only [Option.isSome_none, Bool.false_eq_true, false_iff]
    rintro ⟨hb, ha⟩
    exact h ⟨Ne.symm ha, hb⟩

/-- The code's scalar diff applied by the code's update equals the spec's
fill-or-replace merge. -/
theorem applyChanges_scalarChanges (c : Contact) (cd : ContactData) :
    DatabaseManager.applyChanges c (GoogleContactsAdapter.scalarChanges c cd) =
      specMerge c cd := by
  simp [DatabaseManager.applyChanges, GoogleContactsAdapter.scalarChanges, specMerge,
    fill_field]

/-- The links-adding loop of `_update_contact` under the all-success oracle:
it appends exactly the links whose url is not among `urls`, advances the
tick once per appended link, and reports whether any link was appended. -/
theorem addNewLinks_okAll (contact_id : Nat) (urls : List String) :
    ∀ (lsd : List SocialLinkData) (s : Db) (b : Bool),
      GoogleContactsAdapter.addNewLinks okAll contact_id urls lsd s b =
        ({ s with
            tick := s.tick + (lsd.filter (fun l => !(urls.contains l.url))).length,
            links := s.links ++
              (lsd.filter (fun l => !(urls.contains l.url))).map
                (fun l => ⟨contact_id, l.platform, l.url⟩) },
          Except.ok (b || !(lsd.filter (fun l => !(urls.contains l.url))).isEmpty)) := by
  intro lsd
  induction lsd with
  | nil =>
    intro s b
    simp [GoogleContactsAdapter.addNewLinks]
  | cons l ls ih =>
    intro s b
    rw [GoogleContactsAdapter.addNewLinks]
    by_cases hc : urls.contains l.url
    · have hm : l.url ∈ urls := by simpa using hc
      simp [hc, hm, ih, List.filter_cons]
    · have hm : l.url ∉ urls := by simpa using hc
      simp only [hc, Bool.false_eq_true, if_false, DatabaseManager.add_social_link,
        dbStep_okAll, ih, List.filter_cons, Bool.not_false, if_true]
      simp [hm, List.isEmpty, Nat.add_assoc, Nat.add_comm 1]

/-- The links-adding loop of `_create_contact` under the all-success
oracle: it appends every link of the record, in order. -/
theorem addLinksAll_okAll (contact_id : Nat) :
    ∀ (lsd : List SocialLinkData) (s : Db),
      GoogleContactsAdapter.addLinksAll okAll contact_id lsd s =
        ({ s with
            tick := s.tick + lsd.length,
            links := s.links ++ lsd.map (fun l => ⟨contact_id, l.platform, l.url⟩) },
          Except.ok ()) := by
  intro lsd
  induction lsd with
  | nil =>
    intro s
    simp [GoogleContactsAdapter.addLinksAll]
  | cons l ls ih =>
    intro s
    rw [GoogleContactsAdapter.addLinksAll]
    simp only [DatabaseManager.add_social_link, dbStep_okAll, ih]
    simp [Nat.add_assoc, Nat.add_comm 1]

/-- A `changes` dictionary with no scalar entry is the empty dictionary. -/
theorem hasScalar_false_eq (ch : Changes) (h : ch.hasScalar = false) : ch = {} := by
  rcases ch with ⟨f1, f2, f3, f4, f5, f6⟩
  simp [Changes.hasScalar] at h
  rcases h with ⟨h1, h2, h3, h4, h5, h6⟩
  simp_all

/-- Running `_update_contact` (all store calls succeeding) on a store whose
only contact is the stored row `c` leaves exactly the merged row. -/
theorem update_contact_effect_single (c : Contact) (cd : ContactData)
    (ls : List SocialLink) (n t : Nat) :
    ((GoogleContactsAdapter._update_contact okAll c cd
        { contacts := [c], links := ls, nextId := n, tick := t }).1).contacts =
      [DatabaseManager.applyChanges c (GoogleContactsAdapter.scalarChanges c cd)] := by
  by_cases hs : (GoogleContactsAdapter.scalarChanges c cd).hasScalar
  · simp [GoogleContactsAdapter._update_contact, hs, DatabaseManager.update_contact,
      DatabaseManager.get_social_links, dbStep_okAll, addNewLinks_okAll]
  · have hch := hasScalar_false_eq _ (by simpa using hs)
    rw [GoogleContactsAdapter._update_contact]
    simp [hch, Changes.hasScalar, DatabaseManager.get_social_links, dbStep_okAll,
      addNewLinks_okAll, DatabaseManager.applyChanges]

/-- Closed form of `_create_contact` under the all-success oracle: one new
contact row with a fresh id and exactly the record's attributes, and one
new SocialLink row per input link, in order, with no duplicate check. -/
theorem create_contact_okAll (user_id : Nat) (cd : ContactData) (s : Db) :
    GoogleContactsAdapter._create_contact okAll user_id cd s =
      ({ s with
          tick := s.tick + 1 + cd.social_links.length,
          contacts := s.contacts ++ [⟨s.nextId, user_id, cd.google_id, cd.name,
            cd.email, cd.phone, cd.company, cd.position, cd.notes⟩],
          nextId := s.nextId + 1,
          links := s.links ++ cd.social_links.map
            (fun l => ⟨s.nextId, l.platform, l.url⟩) },
        Except.ok ⟨s.nextId, user_id, cd.google_id, cd.name, cd.email, cd.phone,
          cd.company, cd.position, cd.notes⟩) := by
  simp [GoogleContactsAdapter._create_contact, DatabaseManager.add_contact,
    dbStep_okAll, addLinksAll_okAll]

/-- Closed form of `_update_contact` under the all-success oracle: the
scalar diff is written when non-empty, exactly the links with urls not yet
stored for the contact are appended, and the returned flag is true exactly
when a scalar changed or a link was appended. -/
theorem update_contact_okAll (c : Contact) (cd : ContactData) (s : Db) :
    GoogleContactsAdapter._update_contact okAll c cd s =
      (let ch := GoogleContactsAdapter.scalarChanges c cd
       let s1 : Db := if ch.hasScalar then
           { s with
              tick := s.tick + 1,
              contacts := s.contacts.map fun x =>
                if x.id == c.id then DatabaseManager.applyChanges x ch else x }
         else s
       let new := cd.social_links.filter (fun l => !((urlsOf s c.id).contains l.url))
       ({ s1 with
           tick := s1.tick + 1 + new.length,
           links := s1.links ++ new.map (fun l => ⟨c.id, l.platform, l.url⟩) },
         Except.ok (ch.hasScalar || !new.isEmpty))) := by
  by_cases hs : (GoogleContactsAdapter.scalarChanges c cd).hasScalar
  · simp only [GoogleContactsAdapter._update_contact, hs, if_true,
      DatabaseManager.update_contact, DatabaseManager.get_social_links,
      dbStep_okAll, addNewLinks_okAll, urlsOf]
    simp [Nat.add_assoc]
  · simp only [GoogleContactsAdapter._update_contact, hs, Bool.false_eq_true,
      if_false, DatabaseManager.get_social_links, dbStep_okAll,
      addNewLinks_okAll, urlsOf]
    simp [Nat.add_assoc]

/-- C2: when `_update_contact` updates an existing contact, each scalar
attribute (name, email, phone, company, position, notes) is treated as
changed and written only if the incoming normalized value is non-empty and
differs from the stored value: the stored row becomes exactly the spec's
fill-or-replace merge, an attribute enters the diff iff its incoming value
is non-empty and different, and an empty incoming value leaves the stored
value in place. -/
theorem update_contact_fill_or_replace (c : Contact) (cd : ContactData)
    (ls : List SocialLink) (n t : Nat) :
    ((GoogleContactsAdapter._update_contact okAll c cd
          { contacts := [c], links := ls, nextId := n, tick := t }).1).contacts =
        [specMerge c cd] ∧
      (((GoogleContactsAdapter.scalarChanges c cd).name).isSome = true ↔
        (cd.name ≠ "" ∧ cd.name ≠ c.name)) ∧
      (((GoogleContactsAdapter.scalarChanges c cd).email).isSome = true ↔
        (cd.email ≠ "" ∧ cd.email ≠ c.email)) ∧
      (((GoogleContactsAdapter.scalarChanges c cd).phone).isSome = true ↔
        (cd.phone ≠ "" ∧ cd.phone ≠ c.phone)) ∧
      (((GoogleContactsAdapter.scalarChanges c cd).company).isSome = true ↔
        (cd.company ≠ "" ∧ cd.company ≠ c.company)) ∧
      (((GoogleContactsAdapter.scalarChanges c cd).position).isSome = true ↔
        (cd.position ≠ "" ∧ cd.position ≠ c.position)) ∧
      (((GoogleContactsAdapter.scalarChanges c cd).notes).isSome = true ↔
        (cd.notes ≠ "" ∧ cd.notes ≠ c.notes)) ∧
      (cd.name = "" → (specMerge c cd).name = c.name) ∧
      (cd.email = "" → (specMerge c cd).email = c.email) ∧
      (cd.phone = "" → (specMerge c cd).phone = c.phone) ∧
      (cd.company = "" → (specMerge c cd).company = c.company) ∧
      (cd.position = "" → (specMerge c cd).position = c.position) ∧
      (cd.notes = "" → (specMerge c cd).notes = c.notes) := by
  refine ⟨?_, scalarChange_iff c.name cd.name, scalarChange_iff c.email cd.email,
    scalarChange_iff c.phone cd.phone, scalarChange_iff c.company cd.company,
    scalarChange_iff c.position cd.position, scalarChange_iff c.notes cd.notes,
    ?_, ?_, ?_, ?_, ?_, ?_⟩
  · rw [update_contact_effect_single, applyChanges_scalarChanges]
  all_goals intro h
  all_goals simp [specMerge, h]

/-- Witness for C2 at the spec's example: stored notes "existing" and an
empty incoming notes value leave the stored notes in place. -/
theorem update_contact_fill_or_replace_witness :
    (specMerge ⟨1, 1, "p123", "Ann", "", "", "", "", "existing"⟩
        ⟨"p123", "Ann", "", "", "", "", "", []⟩).notes = "existing" :=
  (update_contact_fill_or_replace ⟨1, 1, "p123", "Ann", "", "", "", "", "existing"⟩
      ⟨"p123", "Ann", "", "", "", "", "", []⟩ [] 1 0).2.2.2.2.2.2.2.2.2.2.2.2 rfl

/-- C3 counterexample: the adapter variant of the reconciliation
(`GoogleContactsAdapter._process_contacts`) performs no google-id check; a
record whose `google_id` is the empty string, processed against the empty
store, is not classified as skipped — a create mutation is issued and the
record is counted as added. -/
theorem adapter_empty_google_id_not_skipped :
    (GoogleContactsAdapter._process_contacts okAll 1
        [{ google_id := "", name := "Ann", email := "", phone := "", company := "",
           position := "", notes := "", social_links := [] }] emptyDb).1.skipped = 0 ∧
      (GoogleContactsAdapter._process_contacts okAll 1
        [{ google_id := "", name := "Ann", email := "", phone := "", company := "",
           position := "", notes := "", social_links := [] }] emptyDb).1.added = 1 ∧
      ((GoogleContactsAdapter._process_contacts okAll 1
        [{ google_id := "", name := "Ann", email := "", phone := "", company := "",
           position := "", notes := "", social_links := [] }] emptyDb).2).contacts.length = 1 :=
  ⟨rfl, rfl, rfl⟩

/-- C3 (amended): in the SyncManager variant, every remote record whose
google id (`resourceName`, falling back to `id`) is absent or empty is
classified as skipped by `SyncManager._process_contacts`, with no store
mutation issued (the store state is returned unchanged), and processing
continues with the next record; the adapter variant performs no such
check. -/
theorem sm_skips_record_without_google_id (ok : Nat → Bool) (user_id : Nat)
    (lookup : List SMContact) (r : PersonRecord) (rest : List PersonRecord)
    (s : SMDb) (result : SyncStats)
    (h : truthy (SyncManager.smGoogleId r) = false) :
    SyncManager.processRecord ok user_id lookup r s =
        (s, SyncManager.SMOutcome.skipped) ∧
      SyncManager.processContactsLoop ok user_id lookup (r :: rest) s result =
        SyncManager.processContactsLoop ok user_id lookup rest s
          { result with skipped := result.skipped + 1 } := by
  have h1 : SyncManager.processRecord ok user_id lookup r s =
      (s, SyncManager.SMOutcome.skipped) := by
    rw [SyncManager.processRecord]
    simp [h]
  refine ⟨h1, ?_⟩
  rw [SyncManager.processContactsLoop, h1]

/-- Witness for C3 at a record with every field absent: it is skipped and
the store is untouched. -/
theorem sm_skips_record_without_google_id_witness :
    SyncManager.processRecord okAll 1 [] {} emptySMDb =
        (emptySMDb, SyncManager.SMOutcome.skipped) ∧
      SyncManager.processContactsLoop okAll 1 [] [{}] emptySMDb ⟨0, 0, 0, 0, 0⟩ =
        SyncManager.processContactsLoop okAll 1 [] [] emptySMDb ⟨0, 0, 0, 1, 0⟩ :=
  sm_skips_record_without_google_id okAll 1 [] {} [] emptySMDb ⟨0, 0, 0, 0, 0⟩ rfl

/-- C7 counterexample: on the create path social links are attached with no
duplicate-url skipping within the input record; a record repeating the same
url twice produces two stored SocialLink rows with that url for the newly
created contact, so url-uniqueness is not preserved. -/
theorem create_contact_duplicates_repeated_url :
    (((GoogleContactsAdapter._create_contact okAll 1
          { google_id := "p123", name := "Ann", email := "", phone := "",
            company := "", position := "", notes := "",
            social_links := [⟨"linkedin", "https://li/ann"⟩,
              ⟨"website", "https://li/ann"⟩] }
          emptyDb).1).links.filter (fun l => l.url == "https://li/ann")).length = 2 :=
  rfl

/-- C7 (amended): on the create path `_create_contact` attaches every
social link of the input record in order with no duplicate-url skipping; on
the update path `_update_contact` appends exactly the links whose url is
not among the contact's already-stored urls, and a repeated url by itself
(all urls already stored, no scalar change) never causes the record to be
classified as updated. -/
theorem social_links_create_and_update (user_id : Nat) (c : Contact)
    (cd : ContactData) (s : Db) :
    ((GoogleContactsAdapter._create_contact okAll user_id cd s).1).links =
        s.links ++ cd.social_links.map (fun l => ⟨s.nextId, l.platform, l.url⟩) ∧
      ((GoogleContactsAdapter._update_contact okAll c cd s).1).links =
        s.links ++ (cd.social_links.filter
            (fun l => !((urlsOf s c.id).contains l.url))).map
          (fun l => ⟨c.id, l.platform, l.url⟩) ∧
      ((∀ l ∈ cd.social_links, (urlsOf s c.id).contains l.url) →
        GoogleContactsAdapter.scalarChanges c cd = {} →
        (GoogleContactsAdapter._update_contact okAll c cd s).2 = Except.ok false) := by
  refine ⟨?_, ?_, ?_⟩
  · rw [create_contact_okAll]
  · rw [update_contact_okAll]
    by_cases hs : (GoogleContactsAdapter.scalarChanges c cd).hasScalar <;> simp [hs]
  · intro hall hch
    rw [update_contact_okAll]
    have hmem : ∀ l ∈ cd.social_links, l.url ∈ urlsOf s c.id := by
      intro l hl
      simpa using hall l hl
    have hnil : cd.social_links.filter
        (fun l => !((urlsOf s c.id).contains l.url)) = [] := by
      rw [List.filter_eq_nil_iff]
      intro l hl
      simpa using hmem l hl
    simp [hch, Changes.hasScalar, hnil]
    exact hmem

/-- Witness for C7 at a concrete update: the existing contact already
stores the url and the record repeats it; no row is appended and the
returned flag is false (the record is skipped, not updated). -/
theorem social_links_create_and_update_witness :
    (GoogleContactsAdapter._update_contact okAll
        ⟨1, 1, "p123", "Ann", "", "", "", "", ""⟩
        ⟨"p123", "Ann", "", "", "", "", "",
          [⟨"linkedin", "https://li/ann"⟩, ⟨"linkedin", "https://li/ann"⟩]⟩
        { contacts := [⟨1, 1, "p123", "Ann", "", "", "", "", ""⟩],
          links := [⟨1, "linkedin", "https://li/ann"⟩], nextId := 2, tick := 0 }).2 =
      Except.ok false :=
  (social_links_create_and_update 1 ⟨1, 1, "p123", "Ann", "", "", "", "", ""⟩
      ⟨"p123", "Ann", "", "", "", "", "",
        [⟨"linkedin", "https://li/ann"⟩, ⟨"linkedin", "https://li/ann"⟩]⟩
      { contacts := [⟨1, 1, "p123", "Ann", "", "", "", "", ""⟩],
        links := [⟨1, "linkedin", "https://li/ann"⟩], nextId := 2, tick := 0 }).2.2
    (by decide) (by decide)

/-- The code's first-primary-else-first selection equals the spec's
selection rule. -/
theorem primaryOrFirst_eq_specSelect {α : Type} (entries : List α)
    (p : α → Bool) :
    GoogleContactsAPI.primaryOrFirst entries p = specSelect entries p := by
  cases entries with
  | nil => rfl
  | cons e es =>
    rw [GoogleContactsAPI.primaryOrFirst, specSelect]
    cases h : (e :: es).find? p <;> simp [h]

/-- C6 counterexample: the SyncManager's field extractor
`_extract_contact_info` does not follow the selection rule — on a record
whose second email entry is the one flagged primary it returns the first
entry's value, while `_process_contact_data` returns the primary one; and
on an empty email list it yields `None`, not the empty string. -/
theorem extract_contact_info_ignores_primary :
    (SyncManager._extract_contact_info
        { emailAddresses := [⟨⟨false⟩, some "first@x"⟩, ⟨⟨true⟩, some "primary@x"⟩] }).email =
        some "first@x" ∧
      (GoogleContactsAPI._process_contact_data
        { emailAddresses := [⟨⟨false⟩, some "first@x"⟩, ⟨⟨true⟩, some "primary@x"⟩] }).email =
        "primary@x" ∧
      (SyncManager._extract_contact_info {}).email = none :=
  ⟨rfl, rfl, rfl⟩

/-- C6 (amended to the google_api extractor): `_process_contact_data` is a
total function and, for each multi-valued field (name, email, phone,
organization, biography), selects the first entry flagged primary in source
order if any, otherwise the first entry in source order, and yields the
empty string when the list is empty (both company and position when the
organization list is empty); the SyncManager's `_extract_contact_info` does
not implement this rule. -/
theorem process_contact_data_selection_rule (r : PersonRecord) :
    ((GoogleContactsAPI._process_contact_data r).name =
        (match specSelect r.names (fun n => n.metadata.primary) with
          | some n => n.displayName.getD ""
          | none => "")) ∧
      ((GoogleContactsAPI._process_contact_data r).email =
        (match specSelect r.emailAddresses (fun e => e.metadata.primary) with
          | some e => e.value.getD ""
          | none => "")) ∧
      ((GoogleContactsAPI._process_contact_data r).phone =
        (match specSelect r.phoneNumbers (fun p => p.metadata.primary) with
          | some p => p.value.getD ""
          | none => "")) ∧
      ((GoogleContactsAPI._process_contact_data r).notes =
        (match specSelect r.biographies (fun b => b.metadata.primary) with
          | some b => b.value.getD ""
          | none => "")) ∧
      ((GoogleContactsAPI._process_contact_data r).company =
        (match specSelect r.organizations (fun o => o.metadata.primary) with
          | some o => o.name.getD ""
          | none => "")) ∧
      ((GoogleContactsAPI._process_contact_data r).position =
        (match specSelect r.organizations (fun o => o.metadata.primary) with
          | some o => o.title.getD ""
          | none => "")) ∧
      (r.names = [] → (GoogleContactsAPI._process_contact_data r).name = "") ∧
      (r.emailAddresses = [] → (GoogleContactsAPI._process_contact_data r).email = "") ∧
      (r.phoneNumbers = [] → (GoogleContactsAPI._process_contact_data r).phone = "") ∧
      (r.biographies = [] → (GoogleContactsAPI._process_contact_data r).notes = "") ∧
      (r.organizations = [] →
        (GoogleContactsAPI._process_contact_data r).company = "" ∧
          (GoogleContactsAPI._process_contact_data r).position = "") := by
  refine ⟨?_, ?_, ?_, ?_, ?_, ?_, ?_, ?_, ?_, ?_, ?_⟩ <;>
    try intro h
  all_goals
    simp_all [GoogleContactsAPI._process_contact_data,
      primaryOrFirst_eq_specSelect, specSelect]

/-- Witness for C6 at the all-absent record: every list is empty and every
extracted field is the empty string. -/
theorem process_contact_data_selection_rule_witness :
    (GoogleContactsAPI._process_contact_data {}).name = "" :=
  (process_contact_data_selection_rule {}).2.2.2.2.2.2.1 rfl

/-- C9: in `SyncManager._process_contacts`, a remote record whose google id
is found in the existing-contacts lookup unconditionally issues an
`update_contact` call against the store and is counted as updated — the
extracted fields are not compared with the stored ones, so this holds even
when they are all equal — and such a record is never classified as
skipped. -/
theorem sm_found_record_always_updated (ok : Nat → Bool) (user_id : Nat)
    (lookup : List SMContact) (r : PersonRecord) (s : SMDb)
    (existing : SMContact)
    (hg : truthy (SyncManager.smGoogleId r) = true)
    (hfound : SyncManager.lookupByGoogleId lookup
      ((SyncManager.smGoogleId r).getD "") = some existing)
    (hok : ok s.tick = true) :
    SyncManager.processRecord ok user_id lookup r s =
      ({ s with
          tick := s.tick + 1,
          contacts := s.contacts.map fun c =>
            if c.id == existing.id then
              { c with info := SyncManager._extract_contact_info r }
            else c,
          updateCalls := s.updateCalls ++
            [(existing.id, SyncManager._extract_contact_info r)] },
        SyncManager.SMOutcome.updated) := by
  rw [SyncManager.processRecord]
  simp [hg, hfound, SyncManager.update_contact, smStep, hok]

/-- Witness for C9 at a stored contact whose fields equal the extracted
ones: the update call is still issued and the record counted as updated. -/
theorem sm_found_record_always_updated_witness :
    SyncManager.processRecord okAll 1
        [⟨5, 1, "g1", ⟨"", none, none, none, none, none⟩⟩]
        { resourceName := some "g1" } emptySMDb =
      ({ contacts := [], nextId := 1, tick := 1,
          updateCalls := [(5, ⟨"", none, none, none, none, none⟩)] },
        SyncManager.SMOutcome.updated) :=
  sm_found_record_always_updated okAll 1
    [⟨5, 1, "g1", ⟨"", none, none, none, none, none⟩⟩]
    { resourceName := some "g1" } emptySMDb
    ⟨5, 1, "g1", ⟨"", none, none, none, none, none⟩⟩ rfl rfl rfl

/-- C5: any exception raised while processing one record of the batch is
caught within that record's iteration — the failed counter is incremented,
the batch continues with the next record in input order, and no per-record
exception escapes the loop — in both variants; concretely, a batch of 3
records whose store create call throws on the 2nd yields total=3, added=2,
failed=1, with the other two records created. -/
theorem per_record_failure_isolation :
    (∀ (ok : Nat → Bool) (user_id : Nat) (cd : ContactData)
        (rest : List ContactData) (s s' : Db) (stats : SyncStats) (e : String),
      GoogleContactsAdapter.processOne ok user_id cd s = (s', Except.error e) →
      GoogleContactsAdapter.processLoop ok user_id (cd :: rest) s stats =
        GoogleContactsAdapter.processLoop ok user_id rest s'
          { stats with failed := stats.failed + 1 }) ∧
    (∀ (ok : Nat → Bool) (user_id : Nat) (lookup : List SMContact)
        (r : PersonRecord) (rest : List PersonRecord) (s s' : SMDb)
        (result : SyncStats),
      SyncManager.processRecord ok user_id lookup r s =
          (s', SyncManager.SMOutcome.failed) →
      SyncManager.processContactsLoop ok user_id lookup (r :: rest) s result =
        SyncManager.processContactsLoop ok user_id lookup rest s'
          { result with failed := result.failed + 1 }) ∧
    (GoogleContactsAdapter._process_contacts (fun k => k != 3) 1
        [⟨"g1", "Ann", "", "", "", "", "", []⟩, ⟨"g2", "Bob", "", "", "", "", "", []⟩,
          ⟨"g3", "Cat", "", "", "", "", "", []⟩] emptyDb).1 =
      ⟨3, 2, 0, 0, 1⟩ ∧
    ((GoogleContactsAdapter._process_contacts (fun k => k != 3) 1
        [⟨"g1", "Ann", "", "", "", "", "", []⟩, ⟨"g2", "Bob", "", "", "", "", "", []⟩,
          ⟨"g3", "Cat", "", "", "", "", "", []⟩] emptyDb).2).contacts.map
      (fun c => c.google_id) = ["g1", "g3"] := by
  refine ⟨?_, ?_, rfl, rfl⟩
  · intro ok user_id cd rest s s' stats e h
    rw [GoogleContactsAdapter.processLoop, h]
  · intro ok user_id lookup r rest s s' result h
    rw [SyncManager.processContactsLoop, h]

/-- Witness for C5: with a store that always throws, the single record is
counted as failed and the loop moves on. -/
theorem per_record_failure_isolation_witness :
    GoogleContactsAdapter.processLoop (fun _ => false) 1
        [⟨"g1", "Ann", "", "", "", "", "", []⟩] emptyDb ⟨1, 0, 0, 0, 0⟩ =
      GoogleContactsAdapter.processLoop (fun _ => false) 1 []
        { emptyDb with tick := 1 } ⟨1, 0, 0, 0, 1⟩ :=
  per_record_failure_isolation.1 (fun _ => false) 1
    ⟨"g1", "Ann", "", "", "", "", "", []⟩ [] emptyDb { emptyDb with tick := 1 }
    ⟨1, 0, 0, 0, 0⟩ "db error" rfl

/-- C4 (amended): an invocation of `SyncManager.sync_contacts` for an
authorized user opens exactly one run-log record before processing and
closes it exactly once afterwards — with success and the statistics when
the engine body succeeds, and with success=false and the exception's
message on an engine-level failure — and the failure is then re-raised to
the caller rather than absorbed.  The adapter's `sync_contacts_from_google`
behaves the same, with the failure surfaced as a success=False result
carrying the message, only when the token-refresh branch is not entered;
when that branch is entered (expired token with a refresh token present)
the refresh raises before the sync log is created and the invocation
returns success=False with no run-log record opened or closed. -/
theorem sync_contacts_run_log_protocol (fetch : Except String (List PersonRecord))
    (fetchA : Except String (List ContactData)) (refreshError : String)
    (ok : Nat → Bool) (user_id : Nat) (s : SMDb) (sa : Db) :
    (∃ b st err, (SyncManager.sync_contacts true fetch ok user_id s).2.2 =
        [RunEvent.openRun user_id, RunEvent.closeRun b st err]) ∧
      (∀ stats, (SyncManager.sync_contacts true fetch ok user_id s).1 =
          Except.ok stats →
        (SyncManager.sync_contacts true fetch ok user_id s).2.2 =
          [RunEvent.openRun user_id, RunEvent.closeRun true (some stats) none]) ∧
      (∀ e, (SyncManager.sync_contacts true fetch ok user_id s).1 =
          Except.error e →
        (SyncManager.sync_contacts true fetch ok user_id s).2.2 =
          [RunEvent.openRun user_id, RunEvent.closeRun false none (some e)]) ∧
      (∀ e, fetch = Except.error e →
        (SyncManager.sync_contacts true fetch ok user_id s).1 = Except.error e) ∧
      (∃ b st err,
        (GoogleContactsAdapter.sync_contacts_from_google true false refreshError
            fetchA ok user_id sa).2.2 =
          [RunEvent.openRun user_id, RunEvent.closeRun b st err]) ∧
      (∀ e, fetchA = Except.error e →
        (GoogleContactsAdapter.sync_contacts_from_google true false refreshError
            fetchA ok user_id sa).2.2 =
            [RunEvent.openRun user_id, RunEvent.closeRun false none (some e)] ∧
          (GoogleContactsAdapter.sync_contacts_from_google true false refreshError
            fetchA ok user_id sa).1 =
            Except.ok ⟨false, ⟨0, 0, 0, 0, 0⟩, "Ошибка синхронизации: " ++ e⟩) ∧
      ((GoogleContactsAdapter.sync_contacts_from_google true true refreshError
          fetchA ok user_id sa).2.2 = [] ∧
        (GoogleContactsAdapter.sync_contacts_from_google true true refreshError
            fetchA ok user_id sa).1 =
          Except.ok ⟨false, ⟨0, 0, 0, 0, 0⟩,
            "Ошибка синхронизации: " ++ refreshError⟩) := by
  refine ⟨?_, ?_, ?_, ?_, ?_, ?_, rfl, rfl⟩
  · cases fetch with
    | error e => exact ⟨false, none, some e, rfl⟩
    | ok gcs =>
      rcases h : SyncManager._process_contacts ok user_id gcs s with ⟨s2, r⟩
      cases r with
      | error e =>
        refine ⟨false, none, some e, ?_⟩
        simp [SyncManager.sync_contacts, h]
      | ok st =>
        refine ⟨true, some st, none, ?_⟩
        simp [SyncManager.sync_contacts, h]
  · intro stats hst
    cases fetch with
    | error e => simp [SyncManager.sync_contacts] at hst
    | ok gcs =>
      rcases h : SyncManager._process_contacts ok user_id gcs s with ⟨s2, r⟩
      cases r with
      | error e =>
        rw [SyncManager.sync_contacts] at hst
        simp [h] at hst
      | ok st =>
        rw [SyncManager.sync_contacts] at hst
        simp [h] at hst
        simp [SyncManager.sync_contacts, h, hst]
  · intro e he
    cases fetch with
    | error e0 =>
      rw [SyncManager.sync_contacts] at he
      simp at he
      simp [SyncManager.sync_contacts, he]
    | ok gcs =>
      rcases h : SyncManager._process_contacts ok user_id gcs s with ⟨s2, r⟩
      cases r with
      | error e0 =>
        rw [SyncManager.sync_contacts] at he
        simp [h] at he
        simp [SyncManager.sync_contacts, h, he]
      | ok st =>
        rw [SyncManager.sync_contacts] at he
        simp [h] at he
  · intro e he
    subst he
    rfl
  · cases fetchA with
    | error e => exact ⟨false, none, some e, rfl⟩
    | ok gcs => exact ⟨true, some (GoogleContactsAdapter._process_contacts ok user_id gcs sa).1, none, rfl⟩
  · intro e he
    subst he
    exact ⟨rfl, rfl⟩

/-- Witness for C4 at a failing fetch: the engine failure is re-raised by
SyncManager.sync_contacts. -/
theorem sync_contacts_run_log_protocol_witness :
    (SyncManager.sync_contacts true (Except.error "boom") okAll 1 emptySMDb).1 =
      Except.error "boom" :=
  (sync_contacts_run_log_protocol (Except.error "boom") (Except.error "boom")
      "TypeError" okAll 1 emptySMDb emptyDb).2.2.2.1 "boom" rfl

/-- C4 counterexample: an authorized invocation of the adapter's
`sync_contacts_from_google` that enters the token-refresh branch raises
before `create_sync_log` — inside google_contacts_adapter.py lines 113-125
the expiry computation adds a `datetime` and an int, since
`refresh_access_token` returns no `expires_in` key — so the invocation
emits no run-log event at all: the run opens no run-log record and closes
none, not exactly one of each, while still returning success=False to the
caller. -/
theorem adapter_refresh_branch_no_run_log :
    (GoogleContactsAdapter.sync_contacts_from_google true true
        "unsupported operand type(s) for +: datetime.datetime and int"
        (Except.ok []) okAll 1 emptyDb).2.2 = [] ∧
      (GoogleContactsAdapter.sync_contacts_from_google true true
          "unsupported operand type(s) for +: datetime.datetime and int"
          (Except.ok []) okAll 1 emptyDb).1 =
        Except.ok ⟨false, ⟨0, 0, 0, 0, 0⟩,
          "Ошибка синхронизации: unsupported operand type(s) for +: datetime.datetime and int"⟩ :=
  ⟨rfl, rfl⟩

/-- Closed form of one record's processing under the all-success oracle
when the google-id lookup finds a stored contact: the scalar diff is
applied, the missing link urls are appended, and the record is classified
as updated exactly when something changed. -/
theorem processOne_okAll_found (user_id : Nat) (cd : ContactData) (s : Db)
    (c : Contact)
    (hf : s.contacts.find?
      (fun x => x.user_id == user_id && x.google_id == cd.google_id) = some c) :
    GoogleContactsAdapter.processOne okAll user_id cd s =
      (let ch := GoogleContactsAdapter.scalarChanges c cd
       let s2 : Db := if ch.hasScalar then
           { s with
              tick := s.tick + 2,
              contacts := s.contacts.map fun x =>
                if x.id == c.id then DatabaseManager.applyChanges x ch else x }
         else { s with tick := s.tick + 1 }
       let new := cd.social_links.filter (fun l => !((urlsOf s c.id).contains l.url))
       ({ s2 with
           tick := s2.tick + 1 + new.length,
           links := s2.links ++ new.map (fun l => ⟨c.id, l.platform, l.url⟩) },
         Except.ok (if ch.hasScalar || !new.isEmpty then
           GoogleContactsAdapter.Outcome.updated
         else GoogleContactsAdapter.Outcome.skipped))) := by
  rw [GoogleContactsAdapter.processOne]
  simp only [DatabaseManager.get_contact_by_google_id, dbStep_okAll, hf]
  rw [update_contact_okAll]
  by_cases hs : (GoogleContactsAdapter.scalarChanges c cd).hasScalar <;>
    simp [hs, urlsOf]

/-- Closed form of one record's processing under the all-success oracle
when the google-id lookup finds nothing: a contact with a fresh id and all
record links is created and the record is classified as added. -/
theorem processOne_okAll_notfound (user_id : Nat) (cd : ContactData) (s : Db)
    (hf : s.contacts.find?
      (fun x => x.user_id == user_id && x.google_id == cd.google_id) = none) :
    GoogleContactsAdapter.processOne okAll user_id cd s =
      ({ s with
          tick := s.tick + 2 + cd.social_links.length,
          contacts := s.contacts ++ [⟨s.nextId, user_id, cd.google_id, cd.name,
            cd.email, cd.phone, cd.company, cd.position, cd.notes⟩],
          nextId := s.nextId + 1,
          links := s.links ++ cd.social_links.map
            (fun l => ⟨s.nextId, l.platform, l.url⟩) },
        Except.ok GoogleContactsAdapter.Outcome.added) := by
  rw [GoogleContactsAdapter.processOne]
  simp only [DatabaseManager.get_contact_by_google_id, dbStep_okAll, hf]
  rw [create_contact_okAll]

/-- An id-targeted update keeps every (owner, google id) key present. -/
theorem hasKey_of_update (contacts : List Contact) (cid : Nat) (ch : Changes)
    (uid : Nat) (g : String) (c0 : Contact) (hc0 : c0 ∈ contacts)
    (h1 : c0.user_id = uid) (h2 : c0.google_id = g) :
    ∃ c1 ∈ contacts.map (fun x =>
        if x.id == cid then DatabaseManager.applyChanges x ch else x),
      c1.user_id = uid ∧ c1.google_id = g := by
  refine ⟨_, List.mem_map_of_mem _ hc0, ?_⟩
  by_cases hid : c0.id == cid <;> simp [hid, DatabaseManager.applyChanges, h1, h2]

/-- Keys present in the store survive one record's processing under the
all-success oracle. -/
theorem processOne_okAll_preserves_hasKey (user_id : Nat) (cd : ContactData)
    (s : Db) (uid' : Nat) (g : String) (h : hasKey s uid' g) :
    hasKey (GoogleContactsAdapter.processOne okAll user_id cd s).1 uid' g := by
  rcases h with ⟨c0, hc0, h1, h2⟩
  cases hf : s.contacts.find?
      (fun x => x.user_id == user_id && x.google_id == cd.google_id) with
  | some c =>
    rw [processOne_okAll_found user_id cd s c hf]
    by_cases hs : (GoogleContactsAdapter.scalarChanges c cd).hasScalar
    · simp only [hs, if_true]
      exact hasKey_of_update s.contacts c.id _ uid' g c0 hc0 h1 h2
    · simp only [hs, Bool.false_eq_true, if_false]
      exact ⟨c0, hc0, h1, h2⟩
  | none =>
    rw [processOne_okAll_notfound user_id cd s hf]
    exact ⟨c0, List.mem_append_left _ hc0, h1, h2⟩

/-- After one record is processed under the all-success oracle its key is
present in the store. -/
theorem processOne_okAll_establishes_hasKey (user_id : Nat) (cd : ContactData)
    (s : Db) :
    hasKey (GoogleContactsAdapter.processOne okAll user_id cd s).1 user_id
      cd.google_id := by
  cases hf : s.contacts.find?
      (fun x => x.user_id == user_id && x.google_id == cd.google_id) with
  | some c =>
    have hmem := List.mem_of_find?_eq_some hf
    have hp := List.find?_some hf
    simp only [Bool.and_eq_true, beq_iff_eq] at hp
    rw [processOne_okAll_found user_id cd s c hf]
    by_cases hs : (GoogleContactsAdapter.scalarChanges c cd).hasScalar
    · simp only [hs, if_true]
      exact hasKey_of_update s.contacts c.id _ user_id cd.google_id c hmem hp.1 hp.2
    · simp only [hs, Bool.false_eq_true, if_false]
      exact ⟨c, hmem, hp.1, hp.2⟩
  | none =>
    rw [processOne_okAll_notfound user_id cd s hf]
    exact ⟨⟨s.nextId, user_id, cd.google_id, cd.name, cd.email, cd.phone,
        cd.company, cd.position, cd.notes⟩,
      List.mem_append_right _ (List.mem_singleton_self _), rfl, rfl⟩

/-- Keys survive the whole processing loop under the all-success oracle. -/
theorem processLoop_okAll_preserves_hasKey (user_id uid' : Nat) (g : String) :
    ∀ (cs : List ContactData) (s : Db) (stats : SyncStats),
      hasKey s uid' g →
      hasKey (GoogleContactsAdapter.processLoop okAll user_id cs s stats).2 uid' g := by
  intro cs
  induction cs with
  | nil =>
    intro s stats h
    simpa [GoogleContactsAdapter.processLoop] using h
  | cons cd rest ih =>
    intro s stats h
    rw [GoogleContactsAdapter.processLoop]
    rcases hp : GoogleContactsAdapter.processOne okAll user_id cd s with ⟨s', r⟩
    have hk : hasKey s' uid' g := by
      have h2 := processOne_okAll_preserves_hasKey user_id cd s uid' g h
      rw [hp] at h2
      exact h2
    match r with
    | Except.error e => exact ih s' _ hk
    | Except.ok GoogleContactsAdapter.Outcome.added => exact ih s' _ hk
    | Except.ok GoogleContactsAdapter.Outcome.updated => exact ih s' _ hk
    | Except.ok GoogleContactsAdapter.Outcome.skipped => exact ih s' _ hk

/-- After a full run under the all-success oracle, every input record's key
is present in the store. -/
theorem processLoop_okAll_keys (user_id : Nat) :
    ∀ (cs : List ContactData) (s : Db) (stats : SyncStats) (cd : ContactData),
      cd ∈ cs →
      hasKey (GoogleContactsAdapter.processLoop okAll user_id cs s stats).2
        user_id cd.google_id := by
  intro cs
  induction cs with
  | nil =>
    intro s stats cd h
    cases h
  | cons cd0 rest ih =>
    intro s stats cd h
    rw [GoogleContactsAdapter.processLoop]
    rcases hp : GoogleContactsAdapter.processOne okAll user_id cd0 s with ⟨s', r⟩
    rcases List.mem_cons.mp h with heq | hmem
    · subst heq
      have hk : hasKey s' user_id cd.google_id := by
        have h2 := processOne_okAll_establishes_hasKey user_id cd s
        rw [hp] at h2
        exact h2
      match r with
      | Except.error e =>
        exact processLoop_okAll_preserves_hasKey user_id user_id cd.google_id rest s' _ hk
      | Except.ok GoogleContactsAdapter.Outcome.added =>
        exact processLoop_okAll_preserves_hasKey user_id user_id cd.google_id rest s' _ hk
      | Except.ok GoogleContactsAdapter.Outcome.updated =>
        exact processLoop_okAll_preserves_hasKey user_id user_id cd.google_id rest s' _ hk
      | Except.ok GoogleContactsAdapter.Outcome.skipped =>
        exact processLoop_okAll_preserves_hasKey user_id user_id cd.google_id rest s' _ hk
    · match r with
      | Except.error e => exact ih s' _ cd hmem
      | Except.ok GoogleContactsAdapter.Outcome.added => exact ih s' _ cd hmem
      | Except.ok GoogleContactsAdapter.Outcome.updated => exact ih s' _ cd hmem
      | Except.ok GoogleContactsAdapter.Outcome.skipped => exact ih s' _ cd hmem

/-- When every record's key is already present, a run under the all-success
oracle adds nothing and fails nothing. -/
theorem processLoop_okAll_found_counts (user_id : Nat) :
    ∀ (cs : List ContactData) (s : Db) (stats : SyncStats),
      (∀ cd ∈ cs, hasKey s user_id cd.google_id) →
      (GoogleContactsAdapter.processLoop okAll user_id cs s stats).1.added =
          stats.added ∧
        (GoogleContactsAdapter.processLoop okAll user_id cs s stats).1.failed =
          stats.failed := by
  intro cs
  induction cs with
  | nil =>
    intro s stats h
    simp [GoogleContactsAdapter.processLoop]
  | cons cd rest ih =>
    intro s stats h
    have hk := h cd (List.mem_cons_self cd rest)
    have hfs : (s.contacts.find?
        (fun x => x.user_id == user_id && x.google_id == cd.google_id)).isSome = true := by
      rw [List.find?_isSome]
      rcases hk with ⟨c0, hc0, h1, h2⟩
      exact ⟨c0, hc0, by simp [h1, h2]⟩
    have hpres : ∀ cd' ∈ rest,
        hasKey (GoogleContactsAdapter.processOne okAll user_id cd s).1 user_id
          cd'.google_id := fun cd' hm =>
      processOne_okAll_preserves_hasKey user_id cd s user_id cd'.google_id
        (h cd' (List.mem_cons_of_mem cd hm))
    rcases ho : s.contacts.find?
        (fun x => x.user_id == user_id && x.google_id == cd.google_id) with _ | c
    · rw [ho] at hfs
      simp at hfs
    · rw [GoogleContactsAdapter.processLoop]
      rw [processOne_okAll_found user_id cd s c ho] at hpres ⊢
      by_cases hflag : ((GoogleContactsAdapter.scalarChanges c cd).hasScalar ||
          !(cd.social_links.filter
            (fun l => !((urlsOf s c.id).contains l.url))).isEmpty)
      · simp only [hflag, if_true]
        have h2 := ih _ { stats with updated := stats.updated + 1 } hpres
        simpa using h2
      · simp only [hflag, Bool.false_eq_true, if_false]
        have h2 := ih _ { stats with skipped := stats.skipped + 1 } hpres
        simpa using h2

/-- Merging once reaches a fixpoint on each scalar field: the merged value
produces no further diff entry against the same incoming value. -/
theorem merge_no_change (stored incoming : String) :
    (if (if incoming ≠ "" ∧ incoming ≠ stored then incoming else stored) ≠ incoming ∧
        incoming ≠ "" then
      some incoming else none) = none := by
  by_cases h1 : incoming = ""
  · simp [h1]
  · by_cases h2 : incoming = stored
    · simp [h1, h2]
    · simp [h1, h2, Ne.symm h2]

/-- The spec merge absorbs the record: diffing the merged contact against
the same record yields no change. -/
theorem scalarChanges_specMerge (c : Contact) (cd : ContactData) :
    GoogleContactsAdapter.scalarChanges (specMerge c cd) cd = {} := by
  simp only [GoogleContactsAdapter.scalarChanges, specMerge]
  congr 1 <;> exact merge_no_change _ _

/-- An id-targeted update keeps the lookup result, mapped: the update map
does not change the key fields any predicate on owner and google id sees. -/
theorem find?_update_map (l : List Contact) (cid : Nat) (ch : Changes)
    (uid : Nat) (g : String) :
    (l.map (fun x =>
        if x.id == cid then DatabaseManager.applyChanges x ch else x)).find?
          (fun x => x.user_id == uid && x.google_id == g) =
      (l.find? (fun x => x.user_id == uid && x.google_id == g)).map
        (fun x => if x.id == cid then DatabaseManager.applyChanges x ch else x) := by
  rw [List.find?_map]
  have hpf : ((fun x : Contact => x.user_id == uid && x.google_id == g) ∘
      (fun x => if x.id == cid then DatabaseManager.applyChanges x ch else x)) =
      (fun x : Contact => x.user_id == uid && x.google_id == g) := by
    funext x
    by_cases hid : x.id = cid <;>
      simp [hid, beq_iff_eq, DatabaseManager.applyChanges]
  rw [hpf]

/-- Decomposition of the stored urls of a contact after link rows are
appended. -/
theorem urlsOf_append (s s' : Db) (ext : List SocialLink)
    (h : s'.links = s.links ++ ext) (cid : Nat) :
    urlsOf s' cid =
      urlsOf s cid ++ (ext.filter (fun l => l.contact_id == cid)).map
        (fun l => l.url) := by
  simp [urlsOf, h, List.filter_append]

/-- After a found record is processed under the all-success oracle, the
record is settled: the lookup finds the merged contact, the diff is empty,
and all record urls are stored. -/
theorem settled_after_found (user_id : Nat) (cd : ContactData) (s : Db)
    (c : Contact)
    (hf : s.contacts.find?
      (fun x => x.user_id == user_id && x.google_id == cd.google_id) = some c) :
    settled (GoogleContactsAdapter.processOne okAll user_id cd s).1 user_id cd := by
  rw [processOne_okAll_found user_id cd s c hf]
  by_cases hs : (GoogleContactsAdapter.scalarChanges c cd).hasScalar
  · simp only [hs, if_true]
    refine ⟨DatabaseManager.applyChanges c (GoogleContactsAdapter.scalarChanges c cd),
      ?_, ?_, ?_⟩
    · dsimp only
      rw [find?_update_map, hf]
      simp
    · rw [applyChanges_scalarChanges]
      exact scalarChanges_specMerge c cd
    · intro l hl
      simp only [urlsOf, DatabaseManager.applyChanges, List.filter_append,
        List.map_append]
      by_cases hc : (urlsOf s c.id).contains l.url
      · exact List.mem_append_left _
          (show l.url ∈ urlsOf s c.id by simpa using hc)
      · refine List.mem_append_right _ ?_
        apply List.mem_map.mpr
        refine ⟨⟨c.id, l.platform, l.url⟩, ?_, rfl⟩
        rw [List.mem_filter]
        exact ⟨List.mem_map.mpr ⟨l, List.mem_filter.mpr ⟨hl, by simpa [urlsOf] using hc⟩, rfl⟩,
          by simp⟩
  · simp only [hs, Bool.false_eq_true, if_false]
    have hch := hasScalar_false_eq _ (by simpa using hs)
    refine ⟨c, hf, hch, ?_⟩
    intro l hl
    simp only [urlsOf, List.filter_append, List.map_append]
    by_cases hc : (urlsOf s c.id).contains l.url
    · exact List.mem_append_left _
        (show l.url ∈ urlsOf s c.id by simpa using hc)
    · refine List.mem_append_right _ ?_
      apply List.mem_map.mpr
      refine ⟨⟨c.id, l.platform, l.url⟩, ?_, rfl⟩
      rw [List.mem_filter]
      exact ⟨List.mem_map.mpr ⟨l, List.mem_filter.mpr ⟨hl, by simpa [urlsOf] using hc⟩, rfl⟩,
        by simp⟩

/-- After a not-found record is created under the all-success oracle, the
record is settled. -/
theorem settled_after_notfound (user_id : Nat) (cd : ContactData) (s : Db)
    (hf : s.contacts.find?
      (fun x => x.user_id == user_id && x.google_id == cd.google_id) = none) :
    settled (GoogleContactsAdapter.processOne okAll user_id cd s).1 user_id cd := by
  rw [processOne_okAll_notfound user_id cd s hf]
  refine ⟨⟨s.nextId, user_id, cd.google_id, cd.name, cd.email, cd.phone, cd.company,
      cd.position, cd.notes⟩, ?_, ?_, ?_⟩
  · dsimp only
    rw [List.find?_append, hf]
    simp
  · simp [GoogleContactsAdapter.scalarChanges]
  · intro l hl
    simp only [urlsOf, List.filter_append, List.map_append]
    refine List.mem_append_right _ ?_
    apply List.mem_map.mpr
    refine ⟨⟨s.nextId, l.platform, l.url⟩, ?_, rfl⟩
    rw [List.mem_filter]
    exact ⟨List.mem_map.mpr ⟨l, hl, rfl⟩, by simp⟩

/-- Processing any record under the all-success oracle settles it. -/
theorem settled_after_processOne (user_id : Nat) (cd : ContactData) (s : Db) :
    settled (GoogleContactsAdapter.processOne okAll user_id cd s).1 user_id cd := by
  cases hf : s.contacts.find?
      (fun x => x.user_id == user_id && x.google_id == cd.google_id) with
  | some c => exact settled_after_found user_id cd s c hf
  | none => exact settled_after_notfound user_id cd s hf

/-- Store well-formedness survives one record's processing under the
all-success oracle. -/
theorem wf_after_processOne (user_id : Nat) (cd : ContactData) (s : Db)
    (hwf : Wf s) :
    Wf (GoogleContactsAdapter.processOne okAll user_id cd s).1 := by
  cases hf : s.contacts.find?
      (fun x => x.user_id == user_id && x.google_id == cd.google_id) with
  | some c =>
    rw [processOne_okAll_found user_id cd s c hf]
    by_cases hs : (GoogleContactsAdapter.scalarChanges c cd).hasScalar
    · simp only [hs, if_true]
      have hmap : (s.contacts.map (fun x =>
          if x.id == c.id then
            DatabaseManager.applyChanges x (GoogleContactsAdapter.scalarChanges c cd)
          else x)).map (fun x => x.id) = s.contacts.map (fun x => x.id) := by
        rw [List.map_map]
        congr 1
        funext x
        by_cases hid : x.id = c.id <;>
          simp [hid, beq_iff_eq, DatabaseManager.applyChanges]
      refine ⟨?_, ?_⟩
      · dsimp only
        rw [hmap]
        exact hwf.1
      · intro x hx
        dsimp only at hx ⊢
        rcases List.mem_map.mp hx with ⟨x0, hx0, rfl⟩
        have hid : (if x0.id == c.id then
            DatabaseManager.applyChanges x0 (GoogleContactsAdapter.scalarChanges c cd)
          else x0).id = x0.id := by
          by_cases h0 : x0.id = c.id <;>
            simp [h0, beq_iff_eq, DatabaseManager.applyChanges]
        rw [hid]
        exact hwf.2 x0 hx0
    · simp only [hs, Bool.false_eq_true, if_false]
      exact hwf
  | none =>
    rw [processOne_okAll_notfound user_id cd s hf]
    refine ⟨?_, ?_⟩
    · dsimp only
      rw [List.map_append, List.nodup_append]
      refine ⟨hwf.1, List.nodup_singleton _, ?_⟩
      intro a ha hb
      simp only [List.map_cons, List.map_nil, List.mem_singleton] at hb
      rcases List.mem_map.mp ha with ⟨x0, hx0, rfl⟩
      have := hwf.2 x0 hx0
      omega
    · intro x hx
      dsimp only at hx ⊢
      rcases List.mem_append.mp hx with h | h
      · have := hwf.2 x h
        omega
      · simp only [List.mem_singleton] at h
        subst h
        simp

/-- Processing a record with a different google id leaves a settled record
settled, in a well-formed store. -/
theorem settled_preserved (user_id : Nat) (cd cd' : ContactData) (s : Db)
    (hwf : Wf s) (hst : settled s user_id cd)
    (hne : cd'.google_id ≠ cd.google_id) :
    settled (GoogleContactsAdapter.processOne okAll user_id cd' s).1 user_id cd := by
  rcases hst with ⟨c, hfc, hch, hurl⟩
  cases hf : s.contacts.find?
      (fun x => x.user_id == user_id && x.google_id == cd'.google_id) with
  | some c' =>
    have hpc := List.find?_some hfc
    have hpc' := List.find?_some hf
    simp only [Bool.and_eq_true, beq_iff_eq] at hpc hpc'
    have hmc := List.mem_of_find?_eq_some hfc
    have hmc' := List.mem_of_find?_eq_some hf
    have hcc : ¬ (c.id = c'.id) := by
      intro heq
      have hceq : c = c' := List.inj_on_of_nodup_map hwf.1 hmc hmc' heq
      apply hne
      rw [← hpc'.2, ← hceq, hpc.2]
    rw [processOne_okAll_found user_id cd' s c' hf]
    by_cases hs : (GoogleContactsAdapter.scalarChanges c' cd').hasScalar
    · simp only [hs, if_true]
      refine ⟨c, ?_, hch, ?_⟩
      · dsimp only
        rw [find?_update_map, hfc]
        simp [hcc]
      · intro l hl
        simp only [urlsOf, List.filter_append, List.map_append]
        exact List.mem_append_left _ (hurl l hl)
    · simp only [hs, Bool.false_eq_true, if_false]
      refine ⟨c, hfc, hch, ?_⟩
      intro l hl
      simp only [urlsOf, List.filter_append, List.map_append]
      exact List.mem_append_left _ (hurl l hl)
  | none =>
    rw [processOne_okAll_notfound user_id cd' s hf]
    refine ⟨c, ?_, hch, ?_⟩
    · dsimp only
      rw [List.find?_append, hfc]
      rfl
    · intro l hl
      simp only [urlsOf, List.filter_append, List.map_append]
      exact List.mem_append_left _ (hurl l hl)

/-- Processing a settled record under the all-success oracle is a pure
no-op classification: the record is skipped and only the call counter
moves. -/
theorem settled_processOne_skip (user_id : Nat) (cd : ContactData) (s : Db)
    (hst : settled s user_id cd) :
    GoogleContactsAdapter.processOne okAll user_id cd s =
      ({ s with tick := s.tick + 2 },
        Except.ok GoogleContactsAdapter.Outcome.skipped) := by
  rcases hst with ⟨c, hfc, hch, hurl⟩
  rw [processOne_okAll_found user_id cd s c hfc]
  have hs : (GoogleContactsAdapter.scalarChanges c cd).hasScalar = false := by
    rw [hch]
    rfl
  have hnil : cd.social_links.filter
      (fun l => !((urlsOf s c.id).contains l.url)) = [] := by
    rw [List.filter_eq_nil_iff]
    intro l hl
    simpa using hurl l hl
  simp [hs, hnil]
  exact hurl

/-- A run over settled records under the all-success oracle skips every
record and leaves the store unchanged but for the call counter. -/
theorem processLoop_okAll_settled_skips (user_id : Nat) :
    ∀ (cs : List ContactData) (s : Db) (stats : SyncStats),
      (∀ cd ∈ cs, settled s user_id cd) →
      GoogleContactsAdapter.processLoop okAll user_id cs s stats =
        (⟨stats.total, stats.added, stats.updated, stats.skipped + cs.length,
            stats.failed⟩,
          { s with tick := s.tick + 2 * cs.length }) := by
  intro cs
  induction cs with
  | nil =>
    intro s stats h
    simp [GoogleContactsAdapter.processLoop]
  | cons cd rest ih =>
    intro s stats h
    rw [GoogleContactsAdapter.processLoop,
      settled_processOne_skip user_id cd s (h cd (List.mem_cons_self cd rest))]
    dsimp only
    rw [ih { s with tick := s.tick + 2 } { stats with skipped := stats.skipped + 1 }
      (fun cd' hm => h cd' (List.mem_cons_of_mem cd hm))]
    simp only [Prod.mk.injEq, SyncStats.mk.injEq, Db.mk.injEq, List.length_cons,
      true_and, and_true]
    all_goals omega

/-- The first run settles every input record and keeps the store
well-formed, provided the input google ids are pairwise distinct. -/
theorem processLoop_okAll_settles (user_id : Nat) :
    ∀ (cs : List ContactData) (s : Db) (stats : SyncStats) (P : List ContactData),
      Wf s →
      (cs.map (fun cd => cd.google_id)).Nodup →
      (∀ cd ∈ P, settled s user_id cd ∧
        cd.google_id ∉ cs.map (fun cd => cd.google_id)) →
      Wf (GoogleContactsAdapter.processLoop okAll user_id cs s stats).2 ∧
        ∀ cd ∈ P ++ cs,
          settled (GoogleContactsAdapter.processLoop okAll user_id cs s stats).2
            user_id cd := by
  intro cs
  induction cs with
  | nil =>
    intro s stats P hwf hnd hP
    rw [GoogleContactsAdapter.processLoop]
    exact ⟨hwf, fun cd h => (hP cd (by simpa using h)).1⟩
  | cons cd0 rest ih =>
    intro s stats P hwf hnd hP
    rw [GoogleContactsAdapter.processLoop]
    rcases hp : GoogleContactsAdapter.processOne okAll user_id cd0 s with ⟨s', r⟩
    have hwf' : Wf s' := by
      have h2 := wf_after_processOne user_id cd0 s hwf
      rwa [hp] at h2
    have hset0 : settled s' user_id cd0 := by
      have h2 := settled_after_processOne user_id cd0 s
      rwa [hp] at h2
    have hnd0 : cd0.google_id ∉ rest.map (fun cd => cd.google_id) := by
      rw [List.map_cons, List.nodup_cons] at hnd
      exact hnd.1
    have hndr : (rest.map (fun cd => cd.google_id)).Nodup := by
      rw [List.map_cons, List.nodup_cons] at hnd
      exact hnd.2
    have hP' : ∀ cd ∈ P ++ [cd0], settled s' user_id cd ∧
        cd.google_id ∉ rest.map (fun cd => cd.google_id) := by
      intro cd h
      rcases List.mem_append.mp h with h | h
      · rcases hP cd h with ⟨hs1, hs2⟩
        rw [List.map_cons] at hs2
        have hne : cd0.google_id ≠ cd.google_id := by
          intro heq
          exact hs2 (by rw [← heq]; exact List.mem_cons_self _ _)
        refine ⟨?_, ?_⟩
        · have h2 := settled_preserved user_id cd cd0 s hwf hs1 hne
          rwa [hp] at h2
        · intro hmem
          exact hs2 (List.mem_cons_of_mem _ hmem)
      · rw [List.mem_singleton] at h
        subst h
        exact ⟨hset0, hnd0⟩
    have hmemfix : ∀ cd : ContactData,
        cd ∈ P ++ cd0 :: rest → cd ∈ (P ++ [cd0]) ++ rest := by
      intro cd h
      rw [List.append_assoc]
      simpa using h
    match r with
    | Except.error e =>
      have hfin := ih s' { stats with failed := stats.failed + 1 } (P ++ [cd0])
        hwf' hndr hP'
      exact ⟨hfin.1, fun cd h => hfin.2 cd (hmemfix cd h)⟩
    | Except.ok GoogleContactsAdapter.Outcome.added =>
      have hfin := ih s' { stats with added := stats.added + 1 } (P ++ [cd0])
        hwf' hndr hP'
      exact ⟨hfin.1, fun cd h => hfin.2 cd (hmemfix cd h)⟩
    | Except.ok GoogleContactsAdapter.Outcome.updated =>
      have hfin := ih s' { stats with updated := stats.updated + 1 } (P ++ [cd0])
        hwf' hndr hP'
      exact ⟨hfin.1, fun cd h => hfin.2 cd (hmemfix cd h)⟩
    | Except.ok GoogleContactsAdapter.Outcome.skipped =>
      have hfin := ih s' { stats with skipped := stats.skipped + 1 } (P ++ [cd0])
        hwf' hndr hP'
      exact ⟨hfin.1, fun cd h => hfin.2 cd (hmemfix cd h)⟩

/-- C8: running the reconciliation (`GoogleContactsAdapter._process_contacts`,
all store calls succeeding) twice in sequence on the same remote record set
with no intervening local edits, from a well-formed store, yields added=0
on the second run; the second run also fails nothing and classifies every
record as updated or skipped, and when the remote records carry pairwise
distinct google ids the second run reports updated=0 and skipped=total
(remote data identical to what run one stored). -/
theorem reconcile_idempotent (user_id : Nat) (cs : List ContactData) (s0 : Db)
    (hwf : Wf s0) :
    (GoogleContactsAdapter._process_contacts okAll user_id cs
        (GoogleContactsAdapter._process_contacts okAll user_id cs s0).2).1.added = 0 ∧
      (GoogleContactsAdapter._process_contacts okAll user_id cs
        (GoogleContactsAdapter._process_contacts okAll user_id cs s0).2).1.failed = 0 ∧
      (GoogleContactsAdapter._process_contacts okAll user_id cs
          (GoogleContactsAdapter._process_contacts okAll user_id cs s0).2).1.updated +
        (GoogleContactsAdapter._process_contacts okAll user_id cs
          (GoogleContactsAdapter._process_contacts okAll user_id cs s0).2).1.skipped =
        (GoogleContactsAdapter._process_contacts okAll user_id cs
          (GoogleContactsAdapter._process_contacts okAll user_id cs s0).2).1.total ∧
      (GoogleContactsAdapter._process_contacts okAll user_id cs
        (GoogleContactsAdapter._process_contacts okAll user_id cs s0).2).1.total =
        cs.length ∧
      ((cs.map (fun cd => cd.google_id)).Nodup →
        (GoogleContactsAdapter._process_contacts okAll user_id cs
            (GoogleContactsAdapter._process_contacts okAll user_id cs s0).2).1.updated = 0 ∧
          (GoogleContactsAdapter._process_contacts okAll user_id cs
            (GoogleContactsAdapter._process_contacts okAll user_id cs s0).2).1.skipped =
            cs.length) := by
  have hkeys : ∀ cd ∈ cs,
      hasKey (GoogleContactsAdapter._process_contacts okAll user_id cs s0).2
        user_id cd.google_id :=
    fun cd h => processLoop_okAll_keys user_id cs s0 _ cd h
  have hcounts := processLoop_okAll_found_counts user_id cs
    (GoogleContactsAdapter._process_contacts okAll user_id cs s0).2
    ⟨cs.length, 0, 0, 0, 0⟩ hkeys
  have hsum := adapter_processLoop_counts okAll user_id cs
    (GoogleContactsAdapter._process_contacts okAll user_id cs s0).2
    ⟨cs.length, 0, 0, 0, 0⟩
  refine ⟨hcounts.1, hcounts.2, ?_, hsum.2, ?_⟩
  · show (GoogleContactsAdapter.processLoop okAll user_id cs
        (GoogleContactsAdapter._process_contacts okAll user_id cs s0).2
        ⟨cs.length, 0, 0, 0, 0⟩).1.updated +
      (GoogleContactsAdapter.processLoop okAll user_id cs
        (GoogleContactsAdapter._process_contacts okAll user_id cs s0).2
        ⟨cs.length, 0, 0, 0, 0⟩).1.skipped =
      (GoogleContactsAdapter.processLoop okAll user_id cs
        (GoogleContactsAdapter._process_contacts okAll user_id cs s0).2
        ⟨cs.length, 0, 0, 0, 0⟩).1.total
    have h1 := hsum.1
    have h2 := hcounts.1
    have h3 := hcounts.2
    have h4 := hsum.2
    simp at h1 h2 h3 h4
    omega
  · intro hnd
    have hsettle := processLoop_okAll_settles user_id cs s0
      ⟨cs.length, 0, 0, 0, 0⟩ [] hwf hnd (by simp)
    have hrun2 := processLoop_okAll_settled_skips user_id cs
      (GoogleContactsAdapter._process_contacts okAll user_id cs s0).2
      ⟨cs.length, 0, 0, 0, 0⟩ (fun cd h => hsettle.2 cd (by simpa using h))
    constructor
    · show (GoogleContactsAdapter.processLoop okAll user_id cs
        (GoogleContactsAdapter._process_contacts okAll user_id cs s0).2
        ⟨cs.length, 0, 0, 0, 0⟩).1.updated = 0
      rw [hrun2]
    · show (GoogleContactsAdapter.processLoop okAll user_id cs
        (GoogleContactsAdapter._process_contacts okAll user_id cs s0).2
        ⟨cs.length, 0, 0, 0, 0⟩).1.skipped = cs.length
      rw [hrun2]
      simp

/-- Witness for C8 at one concrete record over the empty store: the second
run adds nothing, fails nothing, and skips the record. -/
theorem reconcile_idempotent_witness :
    (GoogleContactsAdapter._process_contacts okAll 1
        [⟨"g1", "Ann", "a@x", "", "", "", "", [⟨"linkedin", "https://li/ann"⟩]⟩]
        (GoogleContactsAdapter._process_contacts okAll 1
          [⟨"g1", "Ann", "a@x", "", "", "", "", [⟨"linkedin", "https://li/ann"⟩]⟩]
          emptyDb).2).1.added = 0 ∧
      (GoogleContactsAdapter._process_contacts okAll 1
        [⟨"g1", "Ann", "a@x", "", "", "", "", [⟨"linkedin", "https://li/ann"⟩]⟩]
        (GoogleContactsAdapter._process_contacts okAll 1
          [⟨"g1", "Ann", "a@x", "", "", "", "", [⟨"linkedin", "https://li/ann"⟩]⟩]
          emptyDb).2).1.updated = 0 ∧
      (GoogleContactsAdapter._process_contacts okAll 1
        [⟨"g1", "Ann", "a@x", "", "", "", "", [⟨"linkedin", "https://li/ann"⟩]⟩]
        (GoogleContactsAdapter._process_contacts okAll 1
          [⟨"g1", "Ann", "a@x", "", "", "", "", [⟨"linkedin", "https://li/ann"⟩]⟩]
          emptyDb).2).1.skipped =
        ([⟨"g1", "Ann", "a@x", "", "", "", "",
          [⟨"linkedin", "https://li/ann"⟩]⟩] : List ContactData).length := by
  have h := reconcile_idempotent 1
    [⟨"g1", "Ann", "a@x", "", "", "", "", [⟨"linkedin", "https://li/ann"⟩]⟩]
    emptyDb (by constructor <;> simp [emptyDb])
  have h5 := h.2.2.2.2 (by decide)
  exact ⟨h.1, h5.1, h5.2⟩

end NetWorkGPT
